import Mathlib

/-!
Verification of the edenai_apis provider-adapter layer against its
specification.  The Python adapters are shallowly embedded: JSON/dict values
become an inductive `Json` type, raised Python exceptions become an explicit
`PyError` sum carried in `Except`, HTTP replies become a record of status
code, body text and an optional parsed JSON body, and every adapter function
is translated into an executable Lean function over these types.
-/

namespace EdenAI

/-- Shallow embedding of Python/JSON values as they appear in vendor replies
and payloads.  Python `None` is `Json.null`; dicts are association lists. -/
inductive Json where
  | null : Json
  | bool (b : Bool) : Json
  | num (n : Int) : Json
  | str (s : String) : Json
  | arr (elems : List Json) : Json
  | obj (entries : List (String × Json)) : Json
deriving Repr

/-- Lookup of a key in the association list of a JSON object (Python dict
lookup; first binding wins, as dict keys are unique). -/
def lookupEntry : List (String × Json) → String → Option Json
  | [], _ => none
  | (k, v) :: rest, key => if k = key then some v else lookupEntry rest key

/-- `j.get? key` is `some v` when `j` is a dict with entry `key`, else `none`.
Call sites only apply it to values that are dicts in Python. -/
def Json.get? : Json → String → Option Json
  | .obj entries, key => lookupEntry entries key
  | _, _ => none

/-- Python `d.get(key)`: the value when present, `None` otherwise. -/
def Json.getNull (j : Json) (key : String) : Json :=
  (j.get? key).getD Json.null

/-- Python `d.get(key, default)`. -/
def Json.getD (j : Json) (key : String) (d : Json) : Json :=
  (j.get? key).getD d

/-- Python `key in d`. -/
def Json.hasKey (j : Json) (key : String) : Bool :=
  (j.get? key).isSome

/-- Update (or insert) a key of a JSON object: Python `d[key] = v`. -/
def setEntry : List (String × Json) → String → Json → List (String × Json)
  | [], key, v => [(key, v)]
  | (k, w) :: rest, key, v =>
    if k = key then (k, v) :: rest else (k, w) :: setEntry rest key v

/-- Python dict assignment `d[key] = v` (identity on non-dicts, which no call
site reaches). -/
def Json.set : Json → String → Json → Json
  | .obj entries, key, v => .obj (setEntry entries key v)
  | j, _, _ => j

/-- Python truthiness of a JSON value (`if x:`). -/
def Json.truthy : Json → Bool
  | .null => false
  | .bool b => b
  | .num n => n != 0
  | .str s => s ≠ ""
  | .arr xs => !xs.isEmpty
  | .obj es => !es.isEmpty

/-- Python `str(x)` on the JSON values that reach it in the adapters:
`str(None) = "None"`, strings stay themselves, numbers and booleans print.
(Containers never reach `str` in the embedded code paths.) -/
def pyStr : Json → String
  | .null => "None"
  | .str s => s
  | .num n => toString n
  | .bool true => "True"
  | .bool false => "False"
  | .arr _ => "[...]"
  | .obj _ => "{...}"

/-- The string value of a JSON value, `""` for non-strings: Python `==`
between a non-string JSON value and a string literal is `False`, and the
adapters only compare against non-empty literals. -/
def jsonStrVal : Json → String
  | .str s => s
  | _ => ""

/-- The Python exceptions the embedded adapter code can raise.
`providerException` is the repository's single generic provider error,
carrying a message and an optional status code; the other constructors are
builtin or library exceptions that are NOT ProviderException. -/
inductive PyError where
  | providerException (message : String) (code : Option Nat) : PyError
  | jsonDecodeError (text : String) : PyError
  | fileNotFoundError (path : String) : PyError
  | unboundLocalError (name : String) : PyError
  | keyError (key : String) : PyError
  | indexError : PyError
  | attributeError (name : String) : PyError
  | typeError (msg : String) : PyError
deriving Repr, DecidableEq

/-- Whether an exception is the generic provider exception. -/
def PyError.isProviderException : PyError → Bool
  | .providerException _ _ => true
  | _ => false

/-- An HTTP reply as the adapters observe it: status code, raw body text, and
`jsonBody = some j` exactly when `response.json()` parses to `j` (and `none`
when the body is malformed and `.json()` raises a JSON decode error). -/
structure HttpResponse where
  status_code : Nat
  text : String
  jsonBody : Option Json
deriving Repr

/-- The repository's standardized response object `ResponseType[T]`:
`original_response` (the raw vendor JSON, or Python `None` encoded as `none`)
and `standardized_response` (the normalized DTO). -/
structure ResponseTypeM (α : Type) where
  original_response : Option Json
  standardized_response : α
deriving Repr

/-! ## Base64Api: response handling (`base64_api.py`) -/

/-- Body of the `try:` block of `Base64Api._get_response`: parse the JSON
body (a parse failure raises a JSON decode error), and on a status `>= 400`
read `original_response["message"]` and raise `ProviderException` from it. -/
def base64GetResponseTry (response : HttpResponse) : Except PyError Json :=
  match response.jsonBody with
  | none => .error (.jsonDecodeError response.text)
  | some original_response =>
    if response.status_code ≥ 400 then
      match original_response.get? "message" with
      | none => .error (.keyError "message")
      | some m =>
        .error (.providerException (pyStr m) (some response.status_code))
    else .ok original_response

/-- `Base64Api._get_response`: the `except Exception:` handler catches every
failure of the `try:` body — including the `ProviderException` raised inside
it — and re-raises `ProviderException(response.text, code=status_code)`. -/
def base64GetResponse (response : HttpResponse) : Except PyError Json :=
  match base64GetResponseTry response with
  | .ok j => .ok j
  | .error _ =>
    .error (.providerException response.text (some response.status_code))

/-! ## TenstorrentTextApi (`tenstorrent_text_api.py`) -/

/-- `TenstorrentTextApi.check_for_errors`: raise `ProviderException` with the
reply's `message` when that key is present. -/
def tenstorrentCheckForErrors (response : Json) : Except PyError Unit :=
  match response.get? "message" with
  | some m => .error (.providerException (pyStr m) none)
  | none => .ok ()

/-- `TenstorrentTextApi.text__keyword_extraction`.  The argument is the
outcome of `requests.post`: `none` when the HTTP request itself failed before
any response object existed, `some resp` otherwise.

* request failed: the `except` handler evaluates `original_response.text`
  on the never-assigned variable, raising `UnboundLocalError`;
* status `>= 400`: `raise_for_status()` throws, the handler wraps it into
  `ProviderException(response.text)` (no status code is attached);
* success status with a malformed body: `original_response.json()` is OUTSIDE
  the `try:` block, so the JSON decode error propagates to the caller;
* otherwise `check_for_errors` runs and the standardized response is built
  from `original_response["items"]`. -/
def tenstorrentKeywordExtraction (post : Option HttpResponse) :
    Except PyError (ResponseTypeM Json) :=
  match post with
  | none => .error (.unboundLocalError "original_response")
  | some resp =>
    if resp.status_code ≥ 400 then
      .error (.providerException resp.text none)
    else
      match resp.jsonBody with
      | none => .error (.jsonDecodeError resp.text)
      | some original_response =>
        match tenstorrentCheckForErrors original_response with
        | .error e => .error e
        | .ok _ =>
          match original_response.get? "items" with
          | none => .error (.keyError "items")
          | some items =>
            .ok { original_response := some original_response,
                  standardized_response := items }

/-! ## File handling (`open(file, "rb")`) -/

/-- The readable files visible to an adapter call: paths with contents. -/
structure FileSystem where
  files : List (String × String)
deriving Repr

/-- Python `open(path, "rb")` followed by `.read()`: the contents when the
path denotes a readable file, otherwise the builtin `FileNotFoundError`. -/
def fsOpen (fs : FileSystem) (path : String) : Except PyError String :=
  match fs.files.lookup path with
  | some contents => .ok contents
  | none => .error (.fileNotFoundError path)

/-! ## Conversion helpers used by the Base64 formatters

These live in `edenai_apis/utils/conversion.py`, which is not among the
sources at hand, so they are modelled from the specification. -/

/-- Modelled from the spec: `convert_string_to_number` from
`edenai_apis/utils/conversion.py` (not in the sources) performs the spec's
"number coercion", "defaulting absent ones to null": an absent (`None`)
input stays `None`, a number stays itself, a numeric string is parsed, and
anything else yields `None`. -/
def convert_string_to_number : Json → Json
  | .null => .null
  | .num n => .num n
  | .str s => match s.toInt? with
    | some n => .num n
    | none => .null
  | _ => .null

/-- Modelled from the spec: `combine_date_with_time` from
`edenai_apis/utils/conversion.py` (not in the sources) performs the spec's
"date coercion": with no date it yields `None`, a date alone stays itself,
and a date is joined with a time when both are present. -/
def combine_date_with_time : Json → Json → Json
  | .null, _ => .null
  | .str d, .str t => .str (d ++ " " ++ t)
  | .str d, _ => .str d
  | j, _ => j

/-- Modelled from the spec: `retreive_first_number_from_string` from
`edenai_apis/utils/conversion.py` (not in the sources); per the call site's
comment it strips a number out of a string quantity ("avoid cases where the
quantity is concatenated with a string"); `None` stays `None`. -/
def retreive_first_number_from_string : Json → Json
  | .null => .null
  | .num n => .num n
  | .str s =>
    let digits := (s.toList.dropWhile (fun c => !c.isDigit)).takeWhile Char.isDigit
    if digits.isEmpty then .null else .str (String.mk digits)
  | _ => .null

/-! ## Base64Api: dict field accessors -/

/-- Python `value["value"]` (dict subscript): `KeyError` when absent,
`TypeError` when the receiver is not a dict. -/
def jsonBracket (j : Json) (key : String) : Except PyError Json :=
  match j with
  | .obj es =>
    match lookupEntry es key with
    | some v => .ok v
    | none => .error (.keyError key)
  | _ => .error (.typeError "object is not subscriptable")

/-- Python `data[0]` on the vendor reply (a JSON array of documents). -/
def jsonIndex (j : Json) (i : Nat) : Except PyError Json :=
  match j with
  | .arr xs =>
    match xs.get? i with
    | some x => .ok x
    | none => .error .indexError
  | _ => .error (.typeError "object is not subscriptable")

/-- The invoice formatter's accessor
`fields.get(key, default_dict).get("value")`: an absent key falls back to
`defaultdict(lambda: None)` whose `.get("value")` is `None`; a present
non-dict value would have no `.get` attribute. -/
def dictGetValueGet (entries : List (String × Json)) (key : String) :
    Except PyError Json :=
  match lookupEntry entries key with
  | none => .ok Json.null
  | some (Json.obj es) => .ok ((lookupEntry es "value").getD Json.null)
  | some _ => .error (.attributeError "get")

/-- The receipt formatter's accessor
`fields.get(key, default_dict)["value"]`: an absent key falls back to the
defaultdict, whose subscript triggers the `lambda: None` factory; a present
dict without a `"value"` entry raises `KeyError`. -/
def dictGetValueBracket (entries : List (String × Json)) (key : String) :
    Except PyError Json :=
  match lookupEntry entries key with
  | none => .ok Json.null
  | some (Json.obj es) =>
    match lookupEntry es "value" with
    | some v => .ok v
    | none => .error (.keyError "value")
  | some _ => .error (.typeError "object is not subscriptable")

/-- `Base64Api.Field.__getitem__`:
`document.get("fields", {}).get(key, {}).get("value")`, every step defaulting
so that a missing key yields `None`. -/
def base64FieldGetitem (document : Json) (key : String) : Json :=
  ((document.getD "fields" (Json.obj [])).getD key (Json.obj [])).getNull
    "value"

/-! ## Base64Api: item lines (`_extract_item_lignes`) -/

/-- One line item of the invoice/receipt DTOs (`ItemLines` /
`ItemLinesInvoice`). -/
structure ItemLinesM where
  description : Json
  quantity : Json
  amount : Json
  unit_price : Json
deriving Repr

/-- One of the four list comprehensions of `_extract_item_lignes`:
`[value["value"] for key, value in data.items()
  if key.startswith("lineItem") and key.endswith(suffix)]`. -/
def lineItemValues (entries : List (String × Json)) (suffix : String) :
    Except PyError (List Json) :=
  match entries with
  | [] => .ok []
  | (k, v) :: rest =>
    if k.startsWith "lineItem" && k.endsWith suffix then
      match jsonBracket v "value" with
      | .error e => .error e
      | .ok x =>
        match lineItemValues rest suffix with
        | .error e => .error e
        | .ok xs => .ok (x :: xs)
    else lineItemValues rest suffix

/-- `itertools.zip_longest` on four lists with `fillvalue=None`. -/
def zipLongest4 (as bs cs ds : List Json) :
    List (Json × Json × Json × Json) :=
  let n := max (max as.length bs.length) (max cs.length ds.length)
  (List.range n).map fun i =>
    (as.getD i .null, bs.getD i .null, cs.getD i .null, ds.getD i .null)

/-- `Base64Api._extract_item_lignes`: collect the four per-suffix value
lists, zip them with `None` padding, and build one `ItemLines` per tuple
(`description=item[0] if item[0] else ""`, the quantity run through
`retreive_first_number_from_string`, and the three numeric fields through
`convert_string_to_number`). -/
def base64ExtractItemLignes (entries : List (String × Json)) :
    Except PyError (List ItemLinesM) :=
  match lineItemValues entries "Description" with
  | .error e => .error e
  | .ok items_description =>
  match lineItemValues entries "Quantity" with
  | .error e => .error e
  | .ok items_quantity =>
  match lineItemValues entries "UnitPrice" with
  | .error e => .error e
  | .ok items_unit_price =>
  match lineItemValues entries "LineTotal" with
  | .error e => .error e
  | .ok items_total_cost =>
    .ok ((zipLongest4 items_description items_quantity items_total_cost
        items_unit_price).map fun item =>
      { description := if item.1.truthy then item.1 else Json.str ""
        quantity :=
          convert_string_to_number
            (retreive_first_number_from_string item.2.1)
        amount := convert_string_to_number item.2.2.1
        unit_price := convert_string_to_number item.2.2.2 })

/-! ## Base64Api: invoice DTO (`_format_invoice_document_data`) -/

/-- `MerchantInformationInvoice` as constructed by the Base64 formatter. -/
structure MerchantInformationInvoiceM where
  merchant_name : Json
  merchant_address : Json
  merchant_email : Json
  merchant_phone : Json
  merchant_website : Json
  merchant_fax : Json
  merchant_siren : Json
  merchant_siret : Json
  merchant_tax_id : Json
  abn_number : Json
  vat_number : Json
  pan_number : Json
  gst_number : Json
deriving Repr

/-- `CustomerInformationInvoice` as constructed by the Base64 formatter. -/
structure CustomerInformationInvoiceM where
  customer_name : Json
  customer_address : Json
  customer_email : Json
  customer_id : Json
  customer_mailing_address : Json
  customer_remittance_address : Json
  customer_shipping_address : Json
  customer_billing_address : Json
  customer_service_address : Json
  customer_tax_id : Json
  pan_number : Json
  gst_number : Json
  vat_number : Json
  abn_number : Json
deriving Repr

/-- `TaxesInvoice`. -/
structure TaxesInvoiceM where
  value : Json
  rate : Json
deriving Repr

/-- `LocaleInvoice`. -/
structure LocaleInvoiceM where
  currency : Json
  language : Json
deriving Repr

/-- `BankInvoice`. -/
structure BankInvoiceM where
  iban : Json
  account_number : Json
  bsb : Json
  sort_code : Json
  vat_number : Json
  rooting_number : Json
  swift : Json
deriving Repr

/-- `InfosInvoiceParserDataClass`. -/
structure InvoiceInfosM where
  merchant_information : MerchantInformationInvoiceM
  customer_information : CustomerInformationInvoiceM
  invoice_number : Json
  invoice_total : Json
  invoice_subtotal : Json
  amount_due : Json
  discount : Json
  taxes : List TaxesInvoiceM
  payment_term : Json
  purchase_order : Json
  date : Json
  due_date : Json
  locale : LocaleInvoiceM
  bank_informations : BankInvoiceM
  item_lines : List ItemLinesM
deriving Repr

/-- `Base64Api._format_invoice_document_data` (the single
`InfosInvoiceParserDataClass` put into `extracted_data`): take
`data[0].get("fields", [])`, extract the item lines, then read every named
field with `fields.get(key, default_dict).get("value")`, coercing the
numeric ones with `convert_string_to_number` and the two dates with
`combine_date_with_time`.  `fields` must be a dict for `.items()`/`.get`
to exist (its default is the list `[]`). -/
def base64FormatInvoiceDocumentData (data : Json) :
    Except PyError InvoiceInfosM :=
  match jsonIndex data 0 with
  | .error e => .error e
  | .ok d0 =>
  match d0.getD "fields" (Json.arr []) with
  | Json.obj entries =>
    (match base64ExtractItemLignes entries with
    | .error e => .error e
    | .ok items =>
    match dictGetValueGet entries "companyName" with
    | .error e => .error e
    | .ok merchant_name =>
    match dictGetValueGet entries "from" with
    | .error e => .error e
    | .ok merchant_address =>
    match dictGetValueGet entries "billTo" with
    | .error e => .error e
    | .ok customer_name =>
    match dictGetValueGet entries "address" with
    | .error e => .error e
    | .ok customer_address =>
    match dictGetValueGet entries "shipTo" with
    | .error e => .error e
    | .ok customer_shipping_address =>
    match dictGetValueGet entries "soldTo" with
    | .error e => .error e
    | .ok customer_remittance_address =>
    match dictGetValueGet entries "invoiceNumber" with
    | .error e => .error e
    | .ok invoice_number =>
    match dictGetValueGet entries "total" with
    | .error e => .error e
    | .ok invoice_total_raw =>
    match dictGetValueGet entries "subtotal" with
    | .error e => .error e
    | .ok invoice_subtotal_raw =>
    match dictGetValueGet entries "balanceDue" with
    | .error e => .error e
    | .ok amount_due_raw =>
    match dictGetValueGet entries "discount" with
    | .error e => .error e
    | .ok discount_raw =>
    match dictGetValueGet entries "tax" with
    | .error e => .error e
    | .ok taxe_raw =>
    match dictGetValueGet entries "paymentTerms" with
    | .error e => .error e
    | .ok payment_term =>
    match dictGetValueGet entries "purchaseOrder" with
    | .error e => .error e
    | .ok purchase_order =>
    match dictGetValueGet entries "invoiceDate" with
    | .error e => .error e
    | .ok date_raw =>
    match dictGetValueGet entries "invoiceTime" with
    | .error e => .error e
    | .ok time_raw =>
    match dictGetValueGet entries "dueDate" with
    | .error e => .error e
    | .ok due_date_raw =>
    match dictGetValueGet entries "dueTime" with
    | .error e => .error e
    | .ok due_time_raw =>
    match dictGetValueGet entries "iban" with
    | .error e => .error e
    | .ok iban =>
    match dictGetValueGet entries "accountNumber" with
    | .error e => .error e
    | .ok account_number =>
    match dictGetValueGet entries "currency" with
    | .error e => .error e
    | .ok currency =>
      .ok
        { merchant_information :=
            { merchant_name := merchant_name
              merchant_address := merchant_address
              merchant_email := Json.null
              merchant_phone := Json.null
              merchant_website := Json.null
              merchant_fax := Json.null
              merchant_siren := Json.null
              merchant_siret := Json.null
              merchant_tax_id := Json.null
              abn_number := Json.null
              vat_number := Json.null
              pan_number := Json.null
              gst_number := Json.null }
          customer_information :=
            { customer_name := customer_name
              customer_address := customer_address
              customer_email := Json.null
              customer_id := Json.null
              customer_mailing_address := customer_address
              customer_remittance_address := customer_remittance_address
              customer_shipping_address := customer_shipping_address
              customer_billing_address := customer_name
              customer_service_address := Json.null
              customer_tax_id := Json.null
              pan_number := Json.null
              gst_number := Json.null
              vat_number := Json.null
              abn_number := Json.null }
          invoice_number := invoice_number
          invoice_total := convert_string_to_number invoice_total_raw
          invoice_subtotal := convert_string_to_number invoice_subtotal_raw
          amount_due := convert_string_to_number amount_due_raw
          discount := convert_string_to_number discount_raw
          taxes := [{ value := convert_string_to_number taxe_raw,
                      rate := Json.null }]
          payment_term := payment_term
          purchase_order := purchase_order
          date := combine_date_with_time date_raw time_raw
          due_date := combine_date_with_time due_date_raw due_time_raw
          locale := { currency := currency, language := Json.null }
          bank_informations :=
            { iban := iban
              account_number := account_number
              bsb := Json.null
              sort_code := Json.null
              vat_number := Json.null
              rooting_number := Json.null
              swift := Json.null }
          item_lines := items })
  | _ => .error (.attributeError "items")

/-! ## Base64Api: receipt DTO (`_format_receipt_document_data`) -/

/-- `Locale`. -/
structure LocaleM where
  currency : Json
deriving Repr

/-- `MerchantInformation`. -/
structure MerchantInformationM where
  merchant_name : Json
  merchant_address : Json
deriving Repr

/-- `CustomerInformation`. -/
structure CustomerInformationM where
  customer_name : Json
deriving Repr

/-- `PaymentInformation`. -/
structure PaymentInformationM where
  card_number : Json
  card_type : Json
deriving Repr

/-- `Taxes`. -/
structure TaxesM where
  taxes : Json
deriving Repr

/-- `InfosReceiptParserDataClass`.  The `date` and `time` fields are built
with Python `str(...)`, so they always hold strings. -/
structure ReceiptInfosM where
  invoice_number : Json
  invoice_total : Json
  invoice_subtotal : Json
  locale : LocaleM
  merchant_information : MerchantInformationM
  customer_information : CustomerInformationM
  payment_information : PaymentInformationM
  date : Json
  time : Json
  receipt_infos : List (String × Json)
  item_lines : List ItemLinesM
  taxes : List TaxesM
deriving Repr

/-- `Base64Api._format_receipt_document_data` (the single
`InfosReceiptParserDataClass` put into `extracted_data`): like the invoice
formatter but with bracket access `fields.get(key, default_dict)["value"]`,
and with `date=str(date)` / `time=str(time)` applied to the combined date
and the raw time. -/
def base64FormatReceiptDocumentData (data : Json) :
    Except PyError ReceiptInfosM :=
  match jsonIndex data 0 with
  | .error e => .error e
  | .ok d0 =>
  match d0.getD "fields" (Json.arr []) with
  | Json.obj entries =>
    (match base64ExtractItemLignes entries with
    | .error e => .error e
    | .ok items =>
    match dictGetValueBracket entries "receiptNo" with
    | .error e => .error e
    | .ok invoice_number =>
    match dictGetValueBracket entries "total" with
    | .error e => .error e
    | .ok invoice_total_raw =>
    match dictGetValueBracket entries "date" with
    | .error e => .error e
    | .ok date_raw =>
    match dictGetValueBracket entries "time" with
    | .error e => .error e
    | .ok time_raw =>
    match dictGetValueBracket entries "subtotal" with
    | .error e => .error e
    | .ok invoice_subtotal_raw =>
    match dictGetValueBracket entries "shipTo" with
    | .error e => .error e
    | .ok customer_name =>
    match dictGetValueBracket entries "companyName" with
    | .error e => .error e
    | .ok merchant_name =>
    match dictGetValueBracket entries "addressBlock" with
    | .error e => .error e
    | .ok merchant_address =>
    match dictGetValueBracket entries "currency" with
    | .error e => .error e
    | .ok currency =>
    match dictGetValueBracket entries "cardNumber" with
    | .error e => .error e
    | .ok card_number =>
    match dictGetValueBracket entries "cardType" with
    | .error e => .error e
    | .ok card_type =>
    match dictGetValueBracket entries "tax" with
    | .error e => .error e
    | .ok taxe_raw =>
    match dictGetValueBracket entries "paymentCode" with
    | .error e => .error e
    | .ok payment_code =>
    match dictGetValueBracket entries "host" with
    | .error e => .error e
    | .ok host =>
    match dictGetValueBracket entries "paymentId" with
    | .error e => .error e
    | .ok payment_id =>
      .ok
        { invoice_number := invoice_number
          invoice_total := convert_string_to_number invoice_total_raw
          invoice_subtotal := convert_string_to_number invoice_subtotal_raw
          locale := { currency := currency }
          merchant_information :=
            { merchant_name := merchant_name,
              merchant_address := merchant_address }
          customer_information := { customer_name := customer_name }
          payment_information :=
            { card_number := card_number, card_type := card_type }
          date := Json.str (pyStr (combine_date_with_time date_raw time_raw))
          time := Json.str (pyStr time_raw)
          receipt_infos :=
            [("payment_code", payment_code), ("host", host),
             ("payment_id", payment_id), ("card_type", card_type),
             ("receipt_number", invoice_number)]
          item_lines := items
          taxes := [{ taxes := convert_string_to_number taxe_raw }] })
  | _ => .error (.attributeError "items")

/-! ## Base64Api: bank check DTO (`ocr__bank_check_parsing`) -/

/-- `MicrModel`. -/
structure MicrM where
  raw : Json
  account_number : Json
  serial_number : Json
  check_number : Json
  routing_number : Json
deriving Repr

/-- `ItemBankCheckParsingDataClass`. -/
structure ItemBankCheckM where
  amount : Json
  amount_text : Json
  bank_name : Json
  bank_address : Json
  date : Json
  memo : Json
  payer_address : Json
  payer_name : Json
  receiver_name : Json
  receiver_address : Json
  currency : Json
  micr : MicrM
deriving Repr

/-- The per-document body of the `ocr__bank_check_parsing` loop: wrap the
document in `Base64Api.Field` and read each DTO field through
`__getitem__`. -/
def base64BankCheckItem (document : Json) : ItemBankCheckM :=
  { amount := base64FieldGetitem document "amount"
    amount_text := Json.null
    bank_name := Json.null
    bank_address := Json.null
    date := base64FieldGetitem document "date"
    memo := Json.null
    payer_address := base64FieldGetitem document "address"
    payer_name := base64FieldGetitem document "payee"
    receiver_name := Json.null
    receiver_address := Json.null
    currency := base64FieldGetitem document "currency"
    micr :=
      { raw := base64FieldGetitem document "micr"
        account_number := base64FieldGetitem document "accountMumber"
        serial_number := Json.null
        check_number := base64FieldGetitem document "checkNumber"
        routing_number := base64FieldGetitem document "routingNumber" } }

/-! ## Base64Api: file-taking OCR operations -/

/-- `Base64Api._send_ocr_document`: open and read the input file (a bad path
raises the builtin `FileNotFoundError` before anything else), post it, raise
`ProviderException(response.text, code)` on a non-200 status, and parse the
JSON body (`response.json()`, whose decode error would propagate). -/
def base64SendOcrDocument (fs : FileSystem) (file : String)
    (response : HttpResponse) : Except PyError Json :=
  match fsOpen fs file with
  | .error e => .error e
  | .ok _bytes =>
    if response.status_code ≠ 200 then
      .error (.providerException response.text (some response.status_code))
    else
      match response.jsonBody with
      | none => .error (.jsonDecodeError response.text)
      | some j => .ok j

/-- `Base64Api.ocr__invoice_parser` via `_ocr_finance_document`: send the
document, format the reply, and return the standardized `ResponseType`. -/
def base64OcrInvoice (fs : FileSystem) (file : String)
    (response : HttpResponse) :
    Except PyError (ResponseTypeM InvoiceInfosM) :=
  match base64SendOcrDocument fs file response with
  | .error e => .error e
  | .ok original_response =>
    match base64FormatInvoiceDocumentData original_response with
    | .error e => .error e
    | .ok standardized =>
      .ok { original_response := some original_response,
            standardized_response := standardized }

/-- `Base64Api.ocr__receipt_parser` via `_ocr_finance_document`. -/
def base64OcrReceipt (fs : FileSystem) (file : String)
    (response : HttpResponse) :
    Except PyError (ResponseTypeM ReceiptInfosM) :=
  match base64SendOcrDocument fs file response with
  | .error e => .error e
  | .ok original_response =>
    match base64FormatReceiptDocumentData original_response with
    | .error e => .error e
    | .ok standardized =>
      .ok { original_response := some original_response,
            standardized_response := standardized }

/-- `Base64Api.ocr__bank_check_parsing`: open and read the file, run the
reply through `_get_response`, and build one `ItemBankCheckParsingDataClass`
per document of the reply (which the code iterates over, so it must be a
JSON array). -/
def base64OcrBankCheck (fs : FileSystem) (file : String)
    (response : HttpResponse) :
    Except PyError (ResponseTypeM (List ItemBankCheckM)) :=
  match fsOpen fs file with
  | .error e => .error e
  | .ok _bytes =>
    match base64GetResponse response with
    | .error e => .error e
    | .ok original_response =>
      match original_response with
      | Json.arr documents =>
        .ok { original_response := some original_response,
              standardized_response := documents.map base64BankCheckItem }
      | _ => .error (.typeError "object is not iterable")

/-! ## Streaming chunks (`ChatStreamResponse`, `StreamChat`) -/

/-- `ChatStreamResponse`: one standardized streaming chunk. -/
structure ChatStreamResponseM where
  text : String
  blocked : Bool
  provider : String
deriving Repr, DecidableEq

/-- What consuming a Python generator to the end observes: the chunks it
yielded, and the exception it raised mid-iteration, if any. -/
structure GenOutput where
  chunks : List ChatStreamResponseM
  raised : Option PyError
deriving Repr

/-- `StreamChat`: the standardized wrapper holding the lazy generator. -/
structure StreamChatM where
  stream : GenOutput
deriving Repr

/-- A chat operation's standardized response: either a `ChatDataClass`
(generated text plus the user/assistant message list) or a `StreamChat`. -/
inductive ChatOrStream where
  | chat (generated_text : String) (message : List (String × String)) :
      ChatOrStream
  | streamChat (s : StreamChatM) : ChatOrStream
deriving Repr

/-! ## AnthropicApi (`anthropic_api.py`) -/

/-- The per-event body of `AnthropicApi.__chat_stream_generator`: each
decoded `chunk` is inspected by `chunk["type"]` — a `message_delta` yields
one empty blocked chunk, a `content_block_delta` whose `delta` is a
`text_delta` yields its text — and events of any other type yield nothing.
(The `json.loads(event["chunk"]["bytes"])` decoding of the AWS event wrapper
is abstracted into the `Json` input.) -/
def anthropicStreamStep (chunk : Json) :
    Except PyError (List ChatStreamResponseM) :=
  match chunk.get? "type" with
  | none => .error (.keyError "type")
  | some ty =>
    let first : List ChatStreamResponseM :=
      if jsonStrVal ty = "message_delta" then
        [{ text := "", blocked := true, provider := "anthropic" }]
      else []
    if jsonStrVal ty = "content_block_delta" then
      match chunk.get? "delta" with
      | none => .error (.keyError "delta")
      | some delta =>
        match delta.get? "type" with
        | none => .error (.keyError "type")
        | some dty =>
          if jsonStrVal dty = "text_delta" then
            match delta.get? "text" with
            | none => .error (.keyError "text")
            | some (Json.str t) =>
              .ok (first ++
                [{ text := t, blocked := false, provider := "anthropic" }])
            | some _ => .error (.typeError "text is not a string")
          else .ok first
    else .ok first

/-- `AnthropicApi.__chat_stream_generator` run over the whole event stream:
events are consumed one at a time, each contributing its step's chunks; an
exception inside the generator ends the iteration and is recorded. -/
def anthropicChatStreamGenerator : List Json → GenOutput
  | [] => { chunks := [], raised := none }
  | event :: rest =>
    match anthropicStreamStep event with
    | .error e => { chunks := [], raised := some e }
    | .ok outs =>
      let tail := anthropicChatStreamGenerator rest
      { chunks := outs ++ tail.chunks, raised := tail.raised }

/-- The usage patch of `AnthropicApi.text__summarize` and `text__chat`
(`stream=False`):
`original_response["usage"]["total_tokens"] =
   usage["input_tokens"] + usage["output_tokens"]`. -/
def anthropicPatchUsage (response : Json) : Except PyError Json :=
  match response.get? "usage" with
  | none => .error (.keyError "usage")
  | some usage =>
    match usage.get? "input_tokens" with
    | none => .error (.keyError "input_tokens")
    | some (Json.num i) =>
      match usage.get? "output_tokens" with
      | none => .error (.keyError "output_tokens")
      | some (Json.num o) =>
        .ok (response.set "usage" (usage.set "total_tokens" (Json.num (i + o))))
      | some _ => .error (.typeError "unsupported operand")
    | some _ => .error (.typeError "unsupported operand")

/-- `original_response["content"][0]["text"]` as read by the Anthropic chat
and summarize operations (the generated text must be a string for the
standardized pydantic model). -/
def anthropicContentText (response : Json) : Except PyError String :=
  match jsonBracket response "content" with
  | .error e => .error e
  | .ok content =>
    match jsonIndex content 0 with
    | .error e => .error e
    | .ok c0 =>
      match jsonBracket c0 "text" with
      | .error e => .error e
      | .ok (Json.str t) => .ok t
      | .ok _ => .error (.typeError "text is not a string")

/-- `AnthropicApi.text__chat`.  `invokeBody` is the decoded body of the
non-streaming `invoke_model` reply; `streamEvents` the decoded events of the
streaming call (both calls go through the external
`handle_amazon_call`/`bedrock` client).  With `stream=False` the usage is
patched, the generated text extracted, and the `ResponseType` carries the
patched vendor JSON; with `stream=True` it carries
`original_response=None` and a `StreamChat` over the lazy generator. -/
def anthropicTextChat (text : String) (stream : Bool) (invokeBody : Json)
    (streamEvents : List Json) :
    Except PyError (ResponseTypeM ChatOrStream) :=
  if stream = false then
    match anthropicPatchUsage invokeBody with
    | .error e => .error e
    | .ok original_response =>
      match anthropicContentText original_response with
      | .error e => .error e
      | .ok generated_text =>
        .ok { original_response := some original_response,
              standardized_response :=
                .chat generated_text
                  [("user", text), ("assistant", generated_text)] }
  else
    .ok { original_response := none,
          standardized_response :=
            .streamChat { stream := anthropicChatStreamGenerator streamEvents } }

/-- A Python return value that is either a plain object or a 1-tuple wrapping
it (a trailing comma after `return` builds the latter). -/
inductive PyReturnValue (α : Type) where
  | value (r : ResponseTypeM α) : PyReturnValue α
  | singletonTuple (r : ResponseTypeM α) : PyReturnValue α
deriving Repr

/-- Whether an operation's outcome is a 1-tuple rather than a plain
`ResponseType`. -/
def returnsSingletonTuple {α : Type} :
    Except PyError (PyReturnValue α) → Bool
  | .ok (.singletonTuple _) => true
  | _ => false

/-- `AnthropicApi.multimodal__chat`.  The `stream=False` branch returns the
`ResponseType` directly; the `stream=True` branch's `return` expression ends
with a trailing comma, so it returns the 1-tuple
`(ResponseType(original_response=None, standardized_response=StreamChat(...)),)`.
The standardized text of the non-streaming branch is built by the external
`ChatMultimodalDataClass.generate_standardized_response` from the generated
text, which the embedding keeps as the `chat` payload. -/
def anthropicMultimodalChat (stream : Bool) (invokeBody : Json)
    (streamEvents : List Json) :
    Except PyError (PyReturnValue ChatOrStream) :=
  if stream = false then
    match anthropicContentText invokeBody with
    | .error e => .error e
    | .ok generated_text =>
      .ok (.value { original_response := some invokeBody,
                    standardized_response := .chat generated_text [] })
  else
    .ok (.singletonTuple
      { original_response := none,
        standardized_response :=
          .streamChat { stream := anthropicChatStreamGenerator streamEvents } })

/-- `AnthropicApi.__calculate_usage`: count the prompt and completion tokens
with the external `client.count_tokens` (modelled as an oracle that may
fail) and build the usage dict; any client failure becomes
`ProviderException("Client Error", 500)`. -/
def anthropicCalculateUsage (count_tokens : String → Option Nat)
    (prompt generated_text : String) : Except PyError Json :=
  match count_tokens prompt, count_tokens generated_text with
  | some prompt_tokens, some completion_tokens =>
    .ok (Json.obj
      [("total_tokens", Json.num (prompt_tokens + completion_tokens)),
       ("prompt_tokens", Json.num prompt_tokens),
       ("completion_tokens", Json.num completion_tokens)])
  | _, _ => .error (.providerException "Client Error" (some 500))

/-! ## GoogleTextApi: streaming (`google_text_api.py`) -/

/-- `GoogleTextApi._handle_streaming`: a non-200 status raises
`ProviderException(response.text, code)`; otherwise the response lines are
handed to `_gemini_chat_stream_generator` or `__text_chat_stream_generator`
(here the selected generator is the `generate` argument) and the returned
`ResponseType` carries `original_response=None` and a `StreamChat` wrapping
the lazy generator. -/
def googleHandleStreaming (generate : List String → GenOutput)
    (response : HttpResponse) (lines : List String) :
    Except PyError (ResponseTypeM ChatOrStream) :=
  if response.status_code ≠ 200 then
    .error (.providerException response.text (some response.status_code))
  else
    .ok { original_response := none,
          standardized_response := .streamChat { stream := generate lines } }

/-! ## ReplicateApi (`replicate_api.py`) -/

/-- Python `needle in haystack` on strings. -/
def strContains (haystack needle : String) : Bool :=
  (haystack.splitOn needle).length ≥ 2

/-- `ReplicateApi.__get_stream_response` over the SSE lines of the single
streaming HTTP response, threading the `last_chunk` state: a line containing
`event: done` closes the stream; a `data: ` line right after an
`event: error` line yields a blocked `[ERROR]` chunk; `data: ` after an empty
`data: ` yields a newline chunk; any other `data: ` line yields its payload;
all other lines yield nothing. -/
def replicateStreamResponse : List String → String → List ChatStreamResponseM
  | [], _ => []
  | chunk :: rest, last_chunk =>
    if strContains chunk "event: done" then []
    else if last_chunk = "event: error" && chunk.startsWith "data: " then
      { text := "[ERROR]", blocked := true, provider := "replicate" } ::
        replicateStreamResponse rest chunk
    else if chunk.startsWith "data: " then
      (if last_chunk = "data: " && chunk = "data: " then
        { text := "\n", blocked := false, provider := "replicate" }
      else
        { text := chunk.replace "data: " "", blocked := false,
          provider := "replicate" }) :: replicateStreamResponse rest chunk
    else replicateStreamResponse rest chunk

/-- An abbreviated `http.client.responses` status-name table (the stdlib
dict the 5xx branch reads its message from). -/
def httpClientResponses (status : Nat) : String :=
  if status = 500 then "Internal Server Error"
  else if status = 502 then "Bad Gateway"
  else if status = 503 then "Service Unavailable"
  else if status = 504 then "Gateway Timeout"
  else "Server Error"

/-- Python `status == "succeeded"` (a non-string status never equals the
string). -/
def isSucceeded (status : Json) : Bool :=
  jsonStrVal status = "succeeded"

/-- The `while status != "succeeded":` loop of `ReplicateApi.__get_response`
(`stream=False`), polling the job URL.  `polls k` is the reply to the
`k`-th re-poll; `fuel` bounds how many iterations we observe.  The result is
`none` while the loop is still running after `fuel` polls, and
`some` the returned dict or raised exception once it finishes:

* a malformed poll body raises `ProviderException(response.text, code)`;
* a non-200 poll raises `ProviderException` from
  `response_dict.get("error", response_dict)`;
* otherwise the loop continues with `response_dict["status"]`. -/
def replicatePollLoop (polls : Nat → HttpResponse) :
    Nat → Nat → Json → Json → Option (Except PyError Json)
  | fuel, i, status, response_dict =>
    if isSucceeded status then some (.ok response_dict)
    else
      match fuel with
      | 0 => none
      | fuel' + 1 =>
        let r := polls i
        match r.jsonBody with
        | none =>
          some (.error (.providerException r.text (some r.status_code)))
        | some d =>
          if r.status_code ≠ 200 then
            some (.error (.providerException (pyStr (d.getD "error" d))
              (some r.status_code)))
          else
            match d.get? "status" with
            | none => some (.error (.keyError "status"))
            | some status' => replicatePollLoop polls fuel' (i + 1) status' d

/-- The synchronous tail of `ReplicateApi.__get_response` (`stream=False`),
from the first GET of the job URL to the value it returns: a first reply
with status `>= 500` raises with the `http.client.responses` name; a
non-200 first reply raises from its `detail` field; otherwise the polling
loop runs from `response_dict["status"]`, and on success
`__calculate_predict_time` (whose datetime arithmetic is external to this
embedding) patches the metrics before the dict is returned. -/
def replicateGetResponseSync (calculate_predict_time : Json → Json)
    (first : HttpResponse) (polls : Nat → HttpResponse) (fuel : Nat) :
    Option (Except PyError Json) :=
  if first.status_code ≥ 500 then
    some (.error (.providerException (httpClientResponses first.status_code)
      (some first.status_code)))
  else
    match first.jsonBody with
    | none => some (.error (.jsonDecodeError first.text))
    | some response_dict =>
      if first.status_code ≠ 200 then
        some (.error (.providerException
          (pyStr (response_dict.getD "detail" Json.null))
          (some first.status_code)))
      else
        match response_dict.get? "status" with
        | none => some (.error (.keyError "status"))
        | some status =>
          match replicatePollLoop polls fuel 0 status response_dict with
          | some (.ok d) => some (.ok (calculate_predict_time d))
          | r => r

/-- The parsed `status` field of a poll reply, when its body parses and has
one. -/
def pollStatus (r : HttpResponse) : Option Json :=
  r.jsonBody.bind (·.get? "status")

/-! ## OpenaiApi (`openai_api.py`) -/

/-- One credential record of the provider settings. -/
structure ApiSetting where
  api_key : String
  org_key : String
deriving Repr, DecidableEq

/-- What `load_provider` (external) hands back: a single settings dict or a
list of them. -/
inductive ApiSettings where
  | one (s : ApiSetting) : ApiSettings
  | many (ss : List ApiSetting) : ApiSettings
deriving Repr

/-- The module-level state of the `openai` package: its `api_key` attribute,
which `OpenaiApi.__init__` assigns. -/
structure OpenaiModuleState where
  api_key : Option String
deriving Repr, DecidableEq

/-- The per-instance attributes `OpenaiApi.__init__` sets. -/
structure OpenaiApiInstance where
  api_key : String
  org_key : String
  url : String
  model : String
  headers : List (String × String)
  max_tokens : Nat
deriving Repr, DecidableEq

/-- `OpenaiApi.__init__`: choose one settings record (`random.choice` on a
list is modelled by the external choice index `pick`), store the key and
derived headers on the instance, and assign the module-global
`openai.api_key = self.api_key`.  The function returns the constructed
instance together with the updated module state. -/
def openaiApiInit (api_settings : ApiSettings) (pick : Nat)
    (_g : OpenaiModuleState) : OpenaiApiInstance × OpenaiModuleState :=
  let chosen_api_setting := match api_settings with
    | .one s => s
    | .many ss => ss.getD (pick % ss.length) { api_key := "", org_key := "" }
  let inst : OpenaiApiInstance :=
    { api_key := chosen_api_setting.api_key
      org_key := chosen_api_setting.org_key
      url := "https://api.openai.com/v1"
      model := "gpt-3.5-turbo-instruct"
      headers :=
        [("Authorization", "Bearer " ++ chosen_api_setting.api_key),
         ("OpenAI-Organization", chosen_api_setting.org_key),
         ("Content-Type", "application/json")]
      max_tokens := 270 }
  (inst, { api_key := some chosen_api_setting.api_key })

/-! ## GoogleTextApi: `text__search` -/

/-- `InfosSearchDataClass`: one scored search result.  Scores come from the
external `METRICS[similarity_metric]` function; their float values are
abstracted as integers (any linearly ordered score domain). -/
structure InfosSearchM where
  object : String
  document : Nat
  score : Int
deriving Repr, DecidableEq

/-- `item["embeddings"]["values"]` for each prediction, left to right. -/
def extractEmbeddingsValues : List Json → Except PyError (List Json)
  | [] => .ok []
  | item :: rest =>
    match jsonBracket item "embeddings" with
    | .error e => .error e
    | .ok emb =>
      match jsonBracket emb "values" with
      | .error e => .error e
      | .ok v =>
        match extractEmbeddingsValues rest with
        | .error e => .error e
        | .ok xs => .ok (v :: xs)

/-- The list comprehension
`[item["embeddings"]["values"] for item in response["predictions"]]`
with which `text__search` extracts the text embeddings. -/
def extractPredictionValues (response : Json) : Except PyError (List Json) :=
  match jsonBracket response "predictions" with
  | .error e => .error e
  | .ok (Json.arr predictions) => extractEmbeddingsValues predictions
  | .ok _ => .error (.typeError "object is not iterable")

/-- `query_embed_response["predictions"][0]["embeddings"]["values"]`. -/
def extractQueryEmbed (response : Json) : Except PyError Json :=
  match jsonBracket response "predictions" with
  | .error e => .error e
  | .ok predictions =>
    match jsonIndex predictions 0 with
    | .error e => .error e
    | .ok p0 =>
      match jsonBracket p0 "embeddings" with
      | .error e => .error e
      | .ok emb => jsonBracket emb "values"

/-- Descending score order (`sorted(..., key=lambda x: x.score,
reverse=True)` sorts by this relation). -/
def scoreGE (a b : InfosSearchM) : Prop := b.score ≤ a.score

instance : DecidableRel scoreGE := fun a b => Int.decLe b.score a.score

instance : IsTotal InfosSearchM scoreGE :=
  ⟨fun a b => le_total b.score a.score⟩

instance : IsTrans InfosSearchM scoreGE :=
  ⟨fun _ _ _ h1 h2 => le_trans h2 h1⟩

/-- `GoogleTextApi.text__search`.  `embed texts` is the `original_response`
of the external `text__embeddings` call on `texts`; `function_score` is the
selected `METRICS` function.  The second component logs the argument of
every embedding request issued.  A list of more than 5 texts raises
`ProviderException` before any embedding request; otherwise the text and
query embeddings are extracted, each text is scored against the query, and
the items are returned sorted by score in descending order. -/
def googleTextSearch (embed : List String → Json)
    (function_score : Json → Json → Int) (texts : List String)
    (query : String) :
    Except PyError (ResponseTypeM (List InfosSearchM)) × List (List String) :=
  if texts.length > 5 then
    (.error (.providerException
      "Google does not support search in more than 5 items." none), [])
  else
    let texts_embed_response := embed texts
    let query_embed_response := embed [query]
    let log := [texts, [query]]
    match extractPredictionValues texts_embed_response with
    | .error e => (.error e, log)
    | .ok texts_embed =>
      match extractQueryEmbed query_embed_response with
      | .error e => (.error e, log)
      | .ok query_embed =>
        let items := texts_embed.enum.map fun p =>
          ({ object := "search_result", document := p.1,
             score := function_score query_embed p.2 } : InfosSearchM)
        let sorted_items := items.insertionSort scoreGE
        let original_response := Json.obj
          [("texts_embeddings", texts_embed_response),
           ("embeddings_query", query_embed_response)]
        (.ok { original_response := some original_response,
               standardized_response := sorted_items }, log)

/-! ## XAiTextApi: `text__prompt_optimization` usage patch -/

/-- The usage bookkeeping of `XAiTextApi.text__prompt_optimization`: read
`missing_information_response["usage"]["total_tokens"]`, store it under
`usage["missing_information_tokens"]` of the main reply, and add it onto
`usage["total_tokens"]`. -/
def xaiPatchPromptOptimizationUsage (original_response : Json)
    (missing_information_response : Json) : Except PyError Json :=
  match jsonBracket missing_information_response "usage" with
  | .error e => .error e
  | .ok musage =>
    match jsonBracket musage "total_tokens" with
    | .error e => .error e
    | .ok (Json.num total_tokens_missing_information) =>
      match jsonBracket original_response "usage" with
      | .error e => .error e
      | .ok usage =>
        match jsonBracket usage "total_tokens" with
        | .error e => .error e
        | .ok (Json.num old_total) =>
          .ok (original_response.set "usage"
            ((usage.set "missing_information_tokens"
                (Json.num total_tokens_missing_information)).set
              "total_tokens"
              (Json.num (old_total + total_tokens_missing_information))))
        | .ok _ => .error (.typeError "unsupported operand")
    | .ok _ => .error (.typeError "unsupported operand")

/-! ## Accessors used to state closed counterexamples -/

/-- The `original_response` field of a successful operation outcome. -/
def originalResponseOf {α : Type} :
    Except PyError (ResponseTypeM α) → Option (Option Json)
  | .ok r => some r.original_response
  | .error _ => none

/-- The `date` field of a successfully formatted receipt DTO. -/
def receiptDateOf : Except PyError ReceiptInfosM → Option Json
  | .ok r => some r.date
  | .error _ => none

/-- A named usage entry of the reply a patch produced. -/
def usageEntryOf (key : String) : Except PyError Json → Option Json
  | .ok j => (j.get? "usage").bind (·.get? key)
  | .error _ => none

/-! ## Denotations of the Base64 formatters on well-formed field dicts

The vendor's `fields` dict maps each field name to a dict carrying (at
least) a `"value"` entry.  On such inputs the formatters cannot raise, and
they are equal to the total functions below, which make the
missing-key-goes-to-null behaviour directly visible. -/

/-- Whether every entry of a `fields` dict is itself a dict carrying a
`"value"` entry (the shape the Base64 vendor documents have). -/
def wellFormedFields (entries : List (String × Json)) : Bool :=
  entries.all fun p =>
    match p.2 with
    | Json.obj es => (lookupEntry es "value").isSome
    | _ => false

/-- The value a named field contributes: the `"value"` entry of the field's
dict when the key is present, `None` otherwise. -/
def fieldValue (entries : List (String × Json)) (key : String) : Json :=
  match lookupEntry entries key with
  | some (Json.obj es) => (lookupEntry es "value").getD Json.null
  | some _ => Json.null
  | none => Json.null

/-- Total counterpart of `lineItemValues` on well-formed fields. -/
def lineItemValuesTotal (entries : List (String × Json)) (suffix : String) :
    List Json :=
  entries.filterMap fun p =>
    if p.1.startsWith "lineItem" && p.1.endsWith suffix then
      some (p.2.getNull "value")
    else none

/-- Total counterpart of `base64ExtractItemLignes` on well-formed fields. -/
def itemLinesOf (entries : List (String × Json)) : List ItemLinesM :=
  (zipLongest4 (lineItemValuesTotal entries "Description")
      (lineItemValuesTotal entries "Quantity")
      (lineItemValuesTotal entries "LineTotal")
      (lineItemValuesTotal entries "UnitPrice")).map fun item =>
    { description := if item.1.truthy then item.1 else Json.str ""
      quantity :=
        convert_string_to_number (retreive_first_number_from_string item.2.1)
      amount := convert_string_to_number item.2.2.1
      unit_price := convert_string_to_number item.2.2.2 }

/-- The vendor reply shape the finance formatters index into:
`[{"fields": {...}}]`. -/
def docDataOf (entries : List (String × Json)) : Json :=
  Json.arr [Json.obj [("fields", Json.obj entries)]]

/-- Value of `_format_invoice_document_data` on a well-formed fields dict. -/
def invoiceOf (entries : List (String × Json)) : InvoiceInfosM :=
  { merchant_information :=
      { merchant_name := fieldValue entries "companyName"
        merchant_address := fieldValue entries "from"
        merchant_email := Json.null
        merchant_phone := Json.null
        merchant_website := Json.null
        merchant_fax := Json.null
        merchant_siren := Json.null
        merchant_siret := Json.null
        merchant_tax_id := Json.null
        abn_number := Json.null
        vat_number := Json.null
        pan_number := Json.null
        gst_number := Json.null }
    customer_information :=
      { customer_name := fieldValue entries "billTo"
        customer_address := fieldValue entries "address"
        customer_email := Json.null
        customer_id := Json.null
        customer_mailing_address := fieldValue entries "address"
        customer_remittance_address := fieldValue entries "soldTo"
        customer_shipping_address := fieldValue entries "shipTo"
        customer_billing_address := fieldValue entries "billTo"
        customer_service_address := Json.null
        customer_tax_id := Json.null
        pan_number := Json.null
        gst_number := Json.null
        vat_number := Json.null
        abn_number := Json.null }
    invoice_number := fieldValue entries "invoiceNumber"
    invoice_total := convert_string_to_number (fieldValue entries "total")
    invoice_subtotal :=
      convert_string_to_number (fieldValue entries "subtotal")
    amount_due := convert_string_to_number (fieldValue entries "balanceDue")
    discount := convert_string_to_number (fieldValue entries "discount")
    taxes := [{ value := convert_string_to_number (fieldValue entries "tax"),
                rate := Json.null }]
    payment_term := fieldValue entries "paymentTerms"
    purchase_order := fieldValue entries "purchaseOrder"
    date := combine_date_with_time (fieldValue entries "invoiceDate")
      (fieldValue entries "invoiceTime")
    due_date := combine_date_with_time (fieldValue entries "dueDate")
      (fieldValue entries "dueTime")
    locale := { currency := fieldValue entries "currency",
                language := Json.null }
    bank_informations :=
      { iban := fieldValue entries "iban"
        account_number := fieldValue entries "accountNumber"
        bsb := Json.null
        sort_code := Json.null
        vat_number := Json.null
        rooting_number := Json.null
        swift := Json.null }
    item_lines := itemLinesOf entries }

/-- Value of `_format_receipt_document_data` on a well-formed fields dict. -/
def receiptOf (entries : List (String × Json)) : ReceiptInfosM :=
  { invoice_number := fieldValue entries "receiptNo"
    invoice_total := convert_string_to_number (fieldValue entries "total")
    invoice_subtotal :=
      convert_string_to_number (fieldValue entries "subtotal")
    locale := { currency := fieldValue entries "currency" }
    merchant_information :=
      { merchant_name := fieldValue entries "companyName",
        merchant_address := fieldValue entries "addressBlock" }
    customer_information := { customer_name := fieldValue entries "shipTo" }
    payment_information :=
      { card_number := fieldValue entries "cardNumber",
        card_type := fieldValue entries "cardType" }
    date := Json.str (pyStr (combine_date_with_time
      (fieldValue entries "date") (fieldValue entries "time")))
    time := Json.str (pyStr (fieldValue entries "time"))
    receipt_infos :=
      [("payment_code", fieldValue entries "paymentCode"),
       ("host", fieldValue entries "host"),
       ("payment_id", fieldValue entries "paymentId"),
       ("card_type", fieldValue entries "cardType"),
       ("receipt_number", fieldValue entries "receiptNo")]
    item_lines := itemLinesOf entries
    taxes := [{ taxes := convert_string_to_number (fieldValue entries "tax") }] }

/-! # Theorems -/

/-- C1, counterexample.  A Tenstorrent reply with a success status whose
body fails to parse as JSON makes `text__keyword_extraction` raise the raw
JSON decode error, not the generic `ProviderException`: the uniform-wrapping
claim is false as stated. -/
theorem claim1_counterexample :
    tenstorrentKeywordExtraction
        (some { status_code := 200, text := "<html>", jsonBody := none }) =
      .error (.jsonDecodeError "<html>")
    ∧ (PyError.jsonDecodeError "<html>").isProviderException = false :=
  ⟨rfl, rfl⟩

/-- C1, amended.  `Base64Api._get_response` wraps every non-success
(`>= 400`) status and every JSON parse failure into
`ProviderException(response.text, code=status_code)`.
`TenstorrentTextApi.text__keyword_extraction` wraps a non-success status
into `ProviderException(response.text)` (without a code), but a JSON parse
failure on a success reply escapes as the underlying JSON decode error, and
an HTTP request failing before any response object exists makes its handler
raise `UnboundLocalError` instead of the provider exception. -/
theorem claim1_amended :
    (∀ r : HttpResponse, 400 ≤ r.status_code →
      base64GetResponse r =
        .error (.providerException r.text (some r.status_code)))
    ∧ (∀ r : HttpResponse, r.jsonBody = none →
      base64GetResponse r =
        .error (.providerException r.text (some r.status_code)))
    ∧ (∀ r : HttpResponse, 400 ≤ r.status_code →
      tenstorrentKeywordExtraction (some r) =
        .error (.providerException r.text none))
    ∧ (∀ r : HttpResponse, r.status_code < 400 → r.jsonBody = none →
      tenstorrentKeywordExtraction (some r) =
        .error (.jsonDecodeError r.text))
    ∧ tenstorrentKeywordExtraction none =
        .error (.unboundLocalError "original_response") := by
  refine ⟨fun r h => ?_, fun r h => ?_, fun r h => ?_,
    fun r h1 h2 => ?_, rfl⟩
  · have he : ∃ e, base64GetResponseTry r = .error e := by
      cases hb : r.jsonBody with
      | none =>
        exact ⟨.jsonDecodeError r.text, by simp [base64GetResponseTry, hb]⟩
      | some j =>
        cases hm : j.get? "message" with
        | none =>
          exact ⟨.keyError "message",
            by simp [base64GetResponseTry, hb, h, hm]⟩
        | some m =>
          exact ⟨.providerException (pyStr m) (some r.status_code),
            by simp [base64GetResponseTry, hb, h, hm]⟩
    obtain ⟨e, he⟩ := he
    simp [base64GetResponse, he]
  · have he : base64GetResponseTry r = .error (.jsonDecodeError r.text) := by
      simp [base64GetResponseTry, h]
    simp [base64GetResponse, he]
  · simp [tenstorrentKeywordExtraction, h]
  · have h3 : ¬ (r.status_code ≥ 400) := by omega
    simp [tenstorrentKeywordExtraction, h3, h2]

/-- C1, witness: the amended theorem applied to concrete replies of each
kind. -/
theorem claim1_witness :
    base64GetResponse { status_code := 500,
                        text := "err",
                        jsonBody := some (Json.obj []) } =
      .error (.providerException "err" (some 500))
    ∧ base64GetResponse { status_code := 200,
                          text := "bad",
                          jsonBody := none } =
      .error (.providerException "bad" (some 200))
    ∧ tenstorrentKeywordExtraction
        (some { status_code := 404,
                text := "nf",
                jsonBody := some (Json.obj []) }) =
      .error (.providerException "nf" none)
    ∧ tenstorrentKeywordExtraction
        (some { status_code := 200,
                text := "bad",
                jsonBody := none }) =
      .error (.jsonDecodeError "bad") :=
  ⟨claim1_amended.1 _ (by norm_num), claim1_amended.2.1 _ rfl,
    claim1_amended.2.2.1 _ (by norm_num),
    claim1_amended.2.2.2.1 _ (by norm_num) rfl⟩

/-- C3: code bug.  In `AnthropicApi.multimodal__chat` the `stream=True`
branch's `return` expression carries a trailing comma, so the operation
returns the 1-tuple `(ResponseType(...),)` rather than the `ResponseType`
instance its own annotation declares and
`TestSubfeatures.test_feature_api_call` asserts; the `stream=False` branch
returns the plain `ResponseType`. -/
theorem claim3_bug :
    returnsSingletonTuple (anthropicMultimodalChat true (Json.obj []) []) =
      true
    ∧ anthropicMultimodalChat true (Json.obj []) [] =
      .ok (.singletonTuple
        { original_response := none,
          standardized_response :=
            .streamChat { stream := { chunks := [], raised := none } } })
    ∧ returnsSingletonTuple
        (anthropicMultimodalChat false
          (Json.obj [("content",
            Json.arr [Json.obj [("text", Json.str "ok")]])]) []) = false :=
  ⟨rfl, rfl, rfl⟩

/-- C4: code bug.  Calling the file-taking Base64 OCR operations with a path
that denotes no readable file makes the bare `open(file, "rb")` raise the
builtin `FileNotFoundError` before any provider-exception logic runs,
contradicting `TestSubfeatures.test_feature_with_invalid_file`, which
expects `ProviderException` (or `AttributeError`). -/
theorem claim4_bug :
    base64OcrInvoice { files := [] } "fakefile.txt"
        { status_code := 200,
          text := "",
          jsonBody := some (Json.arr []) } =
      .error (.fileNotFoundError "fakefile.txt")
    ∧ base64OcrBankCheck { files := [] } "fakefile.txt"
        { status_code := 200,
          text := "",
          jsonBody := some (Json.arr []) } =
      .error (.fileNotFoundError "fakefile.txt")
    ∧ (PyError.fileNotFoundError "fakefile.txt").isProviderException =
      false :=
  ⟨rfl, rfl, rfl⟩

/-- C2, counterexample.  `AnthropicApi.text__chat` invoked with
`stream=True` returns a `ResponseType` whose `original_response` is `None`,
not the raw vendor JSON: the claim fails for streaming chat calls. -/
theorem claim2_counterexample :
    originalResponseOf (anthropicTextChat "hello" true (Json.obj []) []) =
      some none
    ∧ (none : Option Json).isSome = false :=
  ⟨rfl, rfl⟩

/-- C2, amended.  Every adapter operation returns a `ResponseType` carrying
both an `original_response` and a `standardized_response` field; for
non-streaming operations `original_response` holds the (possibly
usage-patched) raw vendor JSON, but in every `stream=True` branch it is
`None` and the standardized response is the `StreamChat` wrapper over the
generator. -/
theorem claim2_amended :
    (∀ (text : String) (invokeBody : Json) (events : List Json)
        (patched : Json) (generated_text : String),
      anthropicPatchUsage invokeBody = .ok patched →
      anthropicContentText patched = .ok generated_text →
      anthropicTextChat text false invokeBody events =
        .ok { original_response := some patched,
              standardized_response :=
                .chat generated_text
                  [("user", text), ("assistant", generated_text)] })
    ∧ (∀ (text : String) (invokeBody : Json) (events : List Json),
      anthropicTextChat text true invokeBody events =
        .ok { original_response := none,
              standardized_response :=
                .streamChat
                  { stream := anthropicChatStreamGenerator events } })
    ∧ (∀ (generate : List String → GenOutput) (response : HttpResponse)
        (lines : List String),
      response.status_code = 200 →
      googleHandleStreaming generate response lines =
        .ok { original_response := none,
              standardized_response :=
                .streamChat { stream := generate lines } })
    ∧ (∀ (r : HttpResponse) (j items : Json),
      r.jsonBody = some j → r.status_code < 400 →
      j.hasKey "message" = false → j.get? "items" = some items →
      tenstorrentKeywordExtraction (some r) =
        .ok { original_response := some j,
              standardized_response := items }) := by
  refine ⟨fun text invokeBody events patched generated h1 h2 => ?_,
    fun _ _ _ => rfl, fun generate response lines h => ?_,
    fun r j items hj hs hm hi => ?_⟩
  · simp [anthropicTextChat, h1, h2]
  · simp [googleHandleStreaming, h]
  · have h400 : ¬ (r.status_code ≥ 400) := by omega
    have hmsg : j.get? "message" = none := by
      cases hg : j.get? "message" with
      | none => rfl
      | some m => rw [Json.hasKey, hg] at hm; simp at hm
    simp [tenstorrentKeywordExtraction, h400, hj, tenstorrentCheckForErrors,
      hmsg, hi]

/-- C2, witness: the amended theorem applied to a concrete Anthropic body,
a concrete Google streaming reply, and a concrete Tenstorrent reply. -/
theorem claim2_witness :
    anthropicTextChat "hi" false
        (Json.obj
          [("usage", Json.obj [("input_tokens", Json.num 1),
                               ("output_tokens", Json.num 2)]),
           ("content", Json.arr [Json.obj [("text", Json.str "hey")]])]) [] =
      .ok { original_response := some (Json.obj
              [("usage", Json.obj [("input_tokens", Json.num 1),
                                   ("output_tokens", Json.num 2),
                                   ("total_tokens", Json.num 3)]),
               ("content", Json.arr [Json.obj [("text", Json.str "hey")]])]),
            standardized_response :=
              .chat "hey" [("user", "hi"), ("assistant", "hey")] }
    ∧ googleHandleStreaming (fun _ => { chunks := [], raised := none })
        { status_code := 200, text := "", jsonBody := none } [] =
      .ok { original_response := none,
            standardized_response :=
              .streamChat { stream := { chunks := [], raised := none } } }
    ∧ tenstorrentKeywordExtraction
        (some { status_code := 200,
                text := "",
                jsonBody := some (Json.obj [("items", Json.arr [])]) }) =
      .ok { original_response := some (Json.obj [("items", Json.arr [])]),
            standardized_response := Json.arr [] } :=
  ⟨claim2_amended.1 "hi" _ [] _ "hey" rfl rfl,
    claim2_amended.2.2.1 _ _ [] rfl,
    claim2_amended.2.2.2 _ _ _ rfl (by norm_num) rfl rfl⟩

/-- C7, counterexample.  `OpenaiApi.__init__` assigns the module-global
`openai.api_key`, so constructing an adapter mutates state observable by
every other adapter instance: the no-shared-mutable-state claim is false as
stated. -/
theorem claim7_counterexample :
    (openaiApiInit (.one { api_key := "k2", org_key := "o2" }) 0
        { api_key := some "k1" }).2 ≠ { api_key := some "k1" } := by
  decide

/-- C7, amended.  Each `OpenaiApi` instance keeps its own key (its
`api_key` attribute and `Authorization` header are built from its own
settings and are untouched by later constructions), but `__init__` also
writes the chosen key to the module-global `openai.api_key`, which is shared
mutable state: after constructing two adapters the global holds the
second key, no longer the first. -/
theorem claim7_amended :
    ∀ (s1 s2 : ApiSetting) (p1 p2 : Nat) (g : OpenaiModuleState),
      (openaiApiInit (.one s1) p1 g).1.api_key = s1.api_key
      ∧ (openaiApiInit (.one s1) p1 g).1.headers =
          [("Authorization", "Bearer " ++ s1.api_key),
           ("OpenAI-Organization", s1.org_key),
           ("Content-Type", "application/json")]
      ∧ (openaiApiInit (.one s2) p2 (openaiApiInit (.one s1) p1 g).2).1.api_key
          = s2.api_key
      ∧ (openaiApiInit (.one s2) p2 (openaiApiInit (.one s1) p1 g).2).2.api_key
          = some s2.api_key
      ∧ (s1.api_key ≠ s2.api_key →
          (openaiApiInit (.one s2) p2 (openaiApiInit (.one s1) p1 g).2).2.api_key
            ≠ some s1.api_key) := by
  intro s1 s2 p1 p2 g
  refine ⟨rfl, rfl, rfl, rfl, fun hne h => ?_⟩
  exact hne (Option.some.inj h).symm

/-- C7, witness: two adapters built with different keys; the first keeps its
own key while the global ends up with the second one. -/
theorem claim7_witness :
    (openaiApiInit (.one { api_key := "k1", org_key := "o1" }) 0
        { api_key := none }).1.api_key = "k1"
    ∧ (openaiApiInit (.one { api_key := "k2", org_key := "o2" }) 0
        (openaiApiInit (.one { api_key := "k1", org_key := "o1" }) 0
          { api_key := none }).2).2.api_key ≠ some "k1" :=
  ⟨(claim7_amended { api_key := "k1", org_key := "o1" }
      { api_key := "k2", org_key := "o2" } 0 0 { api_key := none }).1,
    (claim7_amended { api_key := "k1", org_key := "o1" }
      { api_key := "k2", org_key := "o2" } 0 0
      { api_key := none }).2.2.2.2 (by decide)⟩

/-- A single decoded Anthropic stream event yields at most one standardized
chunk. -/
theorem anthropicStreamStep_length_le (e : Json)
    (outs : List ChatStreamResponseM) (h : anthropicStreamStep e = .ok outs) :
    outs.length ≤ 1 := by
  simp only [anthropicStreamStep] at h
  cases hg : e.get? "type" with
  | none => rw [hg] at h; exact Except.noConfusion h
  | some ty =>
    rw [hg] at h
    simp only at h
    by_cases hc : jsonStrVal ty = "content_block_delta"
    · rw [if_pos hc, hc] at h
      simp only [String.reduceEq, if_false] at h
      cases hd : e.get? "delta" with
      | none => rw [hd] at h; exact Except.noConfusion h
      | some delta =>
        rw [hd] at h
        simp only at h
        cases hdt : delta.get? "type" with
        | none => rw [hdt] at h; exact Except.noConfusion h
        | some dty =>
          rw [hdt] at h
          simp only at h
          by_cases hts : jsonStrVal dty = "text_delta"
          · rw [if_pos hts] at h
            cases htx : delta.get? "text" with
            | none => rw [htx] at h; exact Except.noConfusion h
            | some t =>
              rw [htx] at h
              cases t <;> try exact Except.noConfusion h
              injection h with h'
              subst h'
              simp
          · rw [if_neg hts] at h
            injection h with h'
            subst h'
            simp
    · rw [if_neg hc] at h
      injection h with h'
      subst h'
      split <;> simp

/-- The Anthropic stream generator forwards chunks as events are consumed:
its output over a concatenation of event streams is the concatenation of
the outputs (when the prefix raises nothing), so no chunk waits for later
events. -/
theorem anthropicChatStreamGenerator_append (xs ys : List Json)
    (h : (anthropicChatStreamGenerator xs).raised = none) :
    anthropicChatStreamGenerator (xs ++ ys) =
      { chunks := (anthropicChatStreamGenerator xs).chunks ++
          (anthropicChatStreamGenerator ys).chunks,
        raised := (anthropicChatStreamGenerator ys).raised } := by
  induction xs with
  | nil =>
    cases hys : anthropicChatStreamGenerator ys
    simp [anthropicChatStreamGenerator, hys]
  | cons e rest ih =>
    cases hs : anthropicStreamStep e with
    | error er =>
      rw [show (e :: rest) ++ ys = e :: (rest ++ ys) from rfl]
      simp [anthropicChatStreamGenerator, hs] at h
    | ok outs =>
      have hr : (anthropicChatStreamGenerator rest).raised = none := by
        simpa [anthropicChatStreamGenerator, hs] using h
      rw [List.cons_append]
      simp only [anthropicChatStreamGenerator, hs]
      rw [ih hr]
      simp [List.append_assoc]

/-- The Anthropic generator yields at most one chunk per consumed event. -/
theorem anthropicChatStreamGenerator_length_le (events : List Json) :
    (anthropicChatStreamGenerator events).chunks.length ≤ events.length := by
  induction events with
  | nil => simp [anthropicChatStreamGenerator]
  | cons e rest ih =>
    cases hs : anthropicStreamStep e with
    | error er => simp [anthropicChatStreamGenerator, hs]
    | ok outs =>
      have hl := anthropicStreamStep_length_le e outs hs
      simp only [anthropicChatStreamGenerator, hs, List.length_append,
        List.length_cons]
      omega

/-- The Replicate stream generator yields at most one chunk per consumed
SSE line. -/
theorem replicateStreamResponse_length_le :
    ∀ (lines : List String) (last_chunk : String),
      (replicateStreamResponse lines last_chunk).length ≤ lines.length := by
  intro lines
  induction lines with
  | nil => intro last; simp [replicateStreamResponse]
  | cons c rest ih =>
    intro last
    have hc := ih c
    simp only [replicateStreamResponse]
    split_ifs <;> simp only [List.length_cons, List.length_nil] <;> omega

/-- C6, counterexample.  A decoded `message_start` event is consumed but
forwarded as no chunk at all, so "each provider event is forwarded as one
standardized chunk" fails: one event in, zero chunks out. -/
theorem claim6_counterexample :
    anthropicChatStreamGenerator
        [Json.obj [("type", Json.str "message_start")]] =
      { chunks := [], raised := none }
    ∧ ([] : List ChatStreamResponseM).length ≠
        [Json.obj [("type", Json.str "message_start")]].length :=
  ⟨rfl, by simp⟩

/-- C6, amended.  Streaming chat calls return `original_response=None` with
a `StreamChat` wrapping the lazy generator, and the generator forwards
chunks incrementally as provider events are consumed (output over
concatenated event streams is the concatenation of outputs), yielding at
most one standardized chunk per event — exactly one for each text content
delta, none for bookkeeping events; the Replicate SSE generator likewise
yields at most one chunk per consumed line. -/
theorem claim6_amended :
    (∀ xs ys : List Json, (anthropicChatStreamGenerator xs).raised = none →
      anthropicChatStreamGenerator (xs ++ ys) =
        { chunks := (anthropicChatStreamGenerator xs).chunks ++
            (anthropicChatStreamGenerator ys).chunks,
          raised := (anthropicChatStreamGenerator ys).raised })
    ∧ (∀ events : List Json,
      (anthropicChatStreamGenerator events).chunks.length ≤ events.length)
    ∧ (∀ t : String,
      anthropicStreamStep
          (Json.obj [("type", Json.str "content_block_delta"),
            ("delta", Json.obj [("type", Json.str "text_delta"),
              ("text", Json.str t)])]) =
        .ok [{ text := t, blocked := false, provider := "anthropic" }])
    ∧ (∀ (text : String) (body : Json) (events : List Json),
      anthropicTextChat text true body events =
        .ok { original_response := none,
              standardized_response :=
                .streamChat
                  { stream := anthropicChatStreamGenerator events } })
    ∧ (∀ (lines : List String) (last_chunk : String),
      (replicateStreamResponse lines last_chunk).length ≤ lines.length) :=
  ⟨anthropicChatStreamGenerator_append,
    anthropicChatStreamGenerator_length_le,
    fun _ => rfl,
    fun _ _ _ => rfl,
    replicateStreamResponse_length_le⟩

/-- C6, witness: the amended theorem at concrete event streams — two text
deltas are forwarded as exactly their two chunks, and a one-event stream
yields at most one chunk. -/
theorem claim6_witness :
    anthropicChatStreamGenerator
        ([Json.obj [("type", Json.str "content_block_delta"),
            ("delta", Json.obj [("type", Json.str "text_delta"),
              ("text", Json.str "a")])]] ++
          [Json.obj [("type", Json.str "content_block_delta"),
            ("delta", Json.obj [("type", Json.str "text_delta"),
              ("text", Json.str "b")])]]) =
      { chunks :=
          (anthropicChatStreamGenerator
            [Json.obj [("type", Json.str "content_block_delta"),
              ("delta", Json.obj [("type", Json.str "text_delta"),
                ("text", Json.str "a")])]]).chunks ++
          (anthropicChatStreamGenerator
            [Json.obj [("type", Json.str "content_block_delta"),
              ("delta", Json.obj [("type", Json.str "text_delta"),
                ("text", Json.str "b")])]]).chunks,
        raised :=
          (anthropicChatStreamGenerator
            [Json.obj [("type", Json.str "content_block_delta"),
              ("delta", Json.obj [("type", Json.str "text_delta"),
                ("text", Json.str "b")])]]).raised }
    ∧ (anthropicChatStreamGenerator
        [Json.obj [("type", Json.str "message_stop")]]).chunks.length ≤ 1 :=
  ⟨claim6_amended.1 _ _ rfl, claim6_amended.2.1 _⟩

/-- If the Replicate polling loop returns the job dict, then either the
status it started from or the status of some later poll was `"succeeded"`. -/
theorem replicatePollLoop_ok_succeeded (polls : Nat → HttpResponse) :
    ∀ (fuel i : Nat) (status d j : Json),
      replicatePollLoop polls fuel i status d = some (.ok j) →
      isSucceeded status = true ∨
        ∃ k s, pollStatus (polls (i + k)) = some s ∧ isSucceeded s = true := by
  intro fuel
  induction fuel with
  | zero =>
    intro i status d j h
    by_cases hs : isSucceeded status = true
    · exact .inl hs
    · rw [Bool.not_eq_true] at hs
      simp [replicatePollLoop, hs] at h
  | succ fuel' ih =>
    intro i status d j h
    by_cases hs : isSucceeded status = true
    · exact .inl hs
    · rw [Bool.not_eq_true] at hs
      simp only [replicatePollLoop, hs, Bool.false_eq_true, if_false] at h
      cases hb : (polls i).jsonBody with
      | none => rw [hb] at h; exact absurd h (by simp)
      | some body =>
        rw [hb] at h
        simp only at h
        by_cases h200 : (polls i).status_code ≠ 200
        · rw [if_pos h200] at h; exact absurd h (by simp)
        · rw [if_neg h200] at h
          cases hst : body.get? "status" with
          | none => rw [hst] at h; exact absurd h (by simp)
          | some status' =>
            rw [hst] at h
            rcases ih (i + 1) status' body j h with hsucc | ⟨k, s, hk, hks⟩
            · refine .inr ⟨0, status', ?_, hsucc⟩
              rw [Nat.add_zero, pollStatus, hb]
              exact hst
            · refine .inr ⟨k + 1, s, ?_, hks⟩
              rw [show i + (k + 1) = (i + 1) + k by omega]
              exact hk

/-- If every poll of the job URL returns HTTP 200 with a parsed status that
is not `"succeeded"`, the Replicate polling loop never finishes: for every
amount of fuel it is still running. -/
theorem replicatePollLoop_stuck (polls : Nat → HttpResponse)
    (hp : ∀ k, (polls k).status_code = 200 ∧
      ∃ s, pollStatus (polls k) = some s ∧ isSucceeded s = false) :
    ∀ (fuel i : Nat) (status d : Json), isSucceeded status = false →
      replicatePollLoop polls fuel i status d = none := by
  intro fuel
  induction fuel with
  | zero => intro i status d hs; simp [replicatePollLoop, hs]
  | succ fuel' ih =>
    intro i status d hs
    obtain ⟨h200, s, hps, hsf⟩ := hp i
    obtain ⟨body, hb, hstat⟩ : ∃ body, (polls i).jsonBody = some body ∧
        body.get? "status" = some s := by
      cases hbb : (polls i).jsonBody with
      | none => rw [pollStatus, hbb] at hps; exact absurd hps (by simp)
      | some b =>
        rw [pollStatus, hbb] at hps
        exact ⟨b, rfl, hps⟩
    simp [replicatePollLoop, hs, hb, h200, hstat, ih _ _ _ hsf]

/-- C8, confirmed.  `ReplicateApi.__get_response` (`stream=False`) returns
normally only if some poll of the job URL (or the first GET) reported the
status `"succeeded"`; and when every poll returns HTTP 200 with a status
other than `"succeeded"` (a terminal `"failed"` included), the
`while status != "succeeded"` loop never terminates. -/
theorem claim8_confirmed :
    (∀ (polls : Nat → HttpResponse) (fuel i : Nat) (status d j : Json),
      replicatePollLoop polls fuel i status d = some (.ok j) →
      isSucceeded status = true ∨
        ∃ k s, pollStatus (polls (i + k)) = some s ∧ isSucceeded s = true)
    ∧ (∀ polls : Nat → HttpResponse,
      (∀ k, (polls k).status_code = 200 ∧
        ∃ s, pollStatus (polls k) = some s ∧ isSucceeded s = false) →
      ∀ (fuel i : Nat) (status d : Json), isSucceeded status = false →
        replicatePollLoop polls fuel i status d = none)
    ∧ (∀ (cpt : Json → Json) (first : HttpResponse)
        (polls : Nat → HttpResponse) (fuel : Nat) (j : Json),
      replicateGetResponseSync cpt first polls fuel = some (.ok j) →
      (∃ s, pollStatus first = some s ∧ isSucceeded s = true) ∨
        ∃ k s, pollStatus (polls k) = some s ∧ isSucceeded s = true) := by
  refine ⟨replicatePollLoop_ok_succeeded, replicatePollLoop_stuck,
    fun cpt first polls fuel j h => ?_⟩
  simp only [replicateGetResponseSync] at h
  by_cases h500 : first.status_code ≥ 500
  · rw [if_pos h500] at h; exact absurd h (by simp)
  · rw [if_neg h500] at h
    cases hb : first.jsonBody with
    | none => rw [hb] at h; exact absurd h (by simp)
    | some d =>
      rw [hb] at h
      simp only at h
      by_cases h200 : first.status_code ≠ 200
      · rw [if_pos h200] at h; exact absurd h (by simp)
      · rw [if_neg h200] at h
        cases hst : d.get? "status" with
        | none => rw [hst] at h; exact absurd h (by simp)
        | some status =>
          rw [hst] at h
          simp only at h
          cases hloop : replicatePollLoop polls fuel 0 status d with
          | none => rw [hloop] at h; exact absurd h (by simp)
          | some r =>
            cases r with
            | error e => rw [hloop] at h; exact absurd h (by simp)
            | ok d' =>
              rcases replicatePollLoop_ok_succeeded polls fuel 0 status d d'
                  hloop with hsucc | ⟨k, s, hk, hks⟩
              · exact .inl ⟨status, by rw [pollStatus, hb]; exact hst, hsucc⟩
              · exact .inr ⟨k, s, by rwa [Nat.zero_add] at hk, hks⟩

/-- C8, witness: with every poll answering 200/"failed" the loop is still
running after 5 polls, and a first status of "succeeded" makes the claim's
disjunction hold at a concrete input. -/
theorem claim8_witness :
    replicatePollLoop
        (fun _ => { status_code := 200,
                    text := "",
                    jsonBody := some (Json.obj [("status",
                      Json.str "failed")]) })
        5 0 (Json.str "starting") (Json.obj []) = none
    ∧ (isSucceeded (Json.str "succeeded") = true ∨
        ∃ (k : Nat) (s : Json),
          pollStatus
              ((fun _ : Nat => ({ status_code := 200,
                                  text := "",
                                  jsonBody := some (Json.obj
                                    [("status", Json.str "failed")]) } :
                  HttpResponse)) k) =
            some s ∧ isSucceeded s = true) :=
  ⟨claim8_confirmed.2.1
      (fun _ : Nat => { status_code := 200,
                        text := "",
                        jsonBody := some (Json.obj
                          [("status", Json.str "failed")]) })
      (fun _ => ⟨rfl, ⟨Json.str "failed", rfl, rfl⟩⟩) 5 0
      (Json.str "starting") (Json.obj []) rfl,
    claim8_confirmed.1
      (fun _ : Nat => { status_code := 200,
                        text := "",
                        jsonBody := some (Json.obj
                          [("status", Json.str "failed")]) })
      1 0 (Json.str "succeeded") (Json.obj []) (Json.obj []) rfl⟩

/-- A failed dict subscript never raises the provider exception. -/
theorem jsonBracket_error_notProvider :
    ∀ (j : Json) (k : String) (e : PyError), jsonBracket j k = .error e →
      e.isProviderException = false := by
  intro j k e h
  cases j
  case obj es =>
    simp only [jsonBracket] at h
    cases hl : lookupEntry es k with
    | some v => rw [hl] at h; exact Except.noConfusion h
    | none => rw [hl] at h; injection h with h'; subst h'; rfl
  all_goals simp only [jsonBracket] at h
  all_goals injection h with h'
  all_goals subst h'
  all_goals rfl

/-- A failed list subscript never raises the provider exception. -/
theorem jsonIndex_error_notProvider :
    ∀ (j : Json) (i : Nat) (e : PyError), jsonIndex j i = .error e →
      e.isProviderException = false := by
  intro j i e h
  cases j
  case arr xs =>
    simp only [jsonIndex] at h
    cases hl : xs.get? i with
    | some v => rw [hl] at h; exact Except.noConfusion h
    | none => rw [hl] at h; injection h with h'; subst h'; rfl
  all_goals simp only [jsonIndex] at h
  all_goals injection h with h'
  all_goals subst h'
  all_goals rfl

/-- A failure while extracting the text embeddings is never the provider
exception. -/
theorem extractEmbeddingsValues_error_notProvider :
    ∀ (ps : List Json) (e : PyError), extractEmbeddingsValues ps = .error e →
      e.isProviderException = false := by
  intro ps
  induction ps with
  | nil => intro e h; exact Except.noConfusion h
  | cons p rest ih =>
    intro e h
    simp only [extractEmbeddingsValues] at h
    cases hemb : jsonBracket p "embeddings" with
    | error e1 =>
      rw [hemb] at h; injection h with h'; subst h'
      exact jsonBracket_error_notProvider _ _ _ hemb
    | ok emb =>
      rw [hemb] at h
      simp only at h
      cases hv : jsonBracket emb "values" with
      | error e2 =>
        rw [hv] at h; injection h with h'; subst h'
        exact jsonBracket_error_notProvider _ _ _ hv
      | ok v =>
        rw [hv] at h
        simp only at h
        cases hr : extractEmbeddingsValues rest with
        | error e3 =>
          rw [hr] at h; injection h with h'; subst h'
          exact ih _ hr
        | ok xs => rw [hr] at h; exact Except.noConfusion h

/-- A failure of `extractPredictionValues` is never the provider
exception. -/
theorem extractPredictionValues_error_notProvider :
    ∀ (resp : Json) (e : PyError), extractPredictionValues resp = .error e →
      e.isProviderException = false := by
  intro resp e h
  simp only [extractPredictionValues] at h
  cases hbr : jsonBracket resp "predictions" with
  | error e1 =>
    rw [hbr] at h; injection h with h'; subst h'
    exact jsonBracket_error_notProvider _ _ _ hbr
  | ok v =>
    rw [hbr] at h
    cases v with
    | arr predictions => exact extractEmbeddingsValues_error_notProvider _ _ h
    | null => injection h with h'; subst h'; rfl
    | bool b => injection h with h'; subst h'; rfl
    | num n => injection h with h'; subst h'; rfl
    | str s => injection h with h'; subst h'; rfl
    | obj es => injection h with h'; subst h'; rfl

/-- A failure while extracting the query embedding is never the provider
exception. -/
theorem extractQueryEmbed_error_notProvider :
    ∀ (resp : Json) (e : PyError), extractQueryEmbed resp = .error e →
      e.isProviderException = false := by
  intro resp e h
  simp only [extractQueryEmbed] at h
  cases hbr : jsonBracket resp "predictions" with
  | error e1 =>
    rw [hbr] at h; injection h with h'; subst h'
    exact jsonBracket_error_notProvider _ _ _ hbr
  | ok predictions =>
    rw [hbr] at h
    simp only at h
    cases hi : jsonIndex predictions 0 with
    | error e2 =>
      rw [hi] at h; injection h with h'; subst h'
      exact jsonIndex_error_notProvider _ _ _ hi
    | ok p0 =>
      rw [hi] at h
      simp only at h
      cases hemb : jsonBracket p0 "embeddings" with
      | error e3 =>
        rw [hemb] at h; injection h with h'; subst h'
        exact jsonBracket_error_notProvider _ _ _ hemb
      | ok emb =>
        rw [hemb] at h
        simp only at h
        exact jsonBracket_error_notProvider _ _ _ h

/-- C9, confirmed.  `GoogleTextApi.text__search` raises `ProviderException`
for every list of more than 5 texts without issuing any embedding request
(the request log is empty); for at most 5 texts that limit exception is
never raised and any returned item list is sorted by score in descending
order. -/
theorem claim9_confirmed :
    (∀ (embed : List String → Json) (fscore : Json → Json → Int)
        (texts : List String) (query : String), texts.length > 5 →
      googleTextSearch embed fscore texts query =
        (.error (.providerException
          "Google does not support search in more than 5 items." none), []))
    ∧ (∀ (embed : List String → Json) (fscore : Json → Json → Int)
        (texts : List String) (query : String), texts.length ≤ 5 →
      (googleTextSearch embed fscore texts query).1 ≠
        .error (.providerException
          "Google does not support search in more than 5 items." none)
      ∧ ∀ r, (googleTextSearch embed fscore texts query).1 = .ok r →
          List.Pairwise scoreGE r.standardized_response) := by
  constructor
  · intro embed fscore texts query h
    simp [googleTextSearch, h]
  · intro embed fscore texts query h
    have hn : ¬ (texts.length > 5) := by omega
    constructor
    · simp only [googleTextSearch, if_neg hn]
      cases hx : extractPredictionValues (embed texts) with
      | error e =>
        simp only
        intro hcontra
        injection hcontra with h'
        have hnp := extractPredictionValues_error_notProvider _ _ hx
        rw [h'] at hnp
        exact absurd hnp (by simp [PyError.isProviderException])
      | ok texts_embed =>
        simp only
        cases hq : extractQueryEmbed (embed [query]) with
        | error e =>
          simp only
          intro hcontra
          injection hcontra with h'
          have hnp := extractQueryEmbed_error_notProvider _ _ hq
          rw [h'] at hnp
          exact absurd hnp (by simp [PyError.isProviderException])
        | ok qe => simp
    · intro r hr
      simp only [googleTextSearch, if_neg hn] at hr
      cases hx : extractPredictionValues (embed texts) with
      | error e => rw [hx] at hr; exact Except.noConfusion hr
      | ok texts_embed =>
        rw [hx] at hr
        simp only at hr
        cases hq : extractQueryEmbed (embed [query]) with
        | error e => rw [hq] at hr; exact Except.noConfusion hr
        | ok qe =>
          rw [hq] at hr
          simp only at hr
          injection hr with h'
          subst h'
          exact List.sorted_insertionSort scoreGE _

/-- C9, witness: the limit branch at six texts with an empty request log,
and a two-text search whose returned items are sorted descending. -/
theorem claim9_witness :
    googleTextSearch (fun _ => Json.obj []) (fun _ _ => 0)
        ["a", "b", "c", "d", "e", "f"] "q" =
      (.error (.providerException
        "Google does not support search in more than 5 items." none), [])
    ∧ List.Pairwise scoreGE
        [({ object := "search_result", document := 0, score := 0 } :
            InfosSearchM),
         { object := "search_result", document := 1, score := 0 }] :=
  ⟨claim9_confirmed.1 _ _ _ _ (by norm_num),
    (claim9_confirmed.2
        (fun ts => Json.obj [("predictions", Json.arr (ts.map fun _ =>
          Json.obj [("embeddings", Json.obj [("values", Json.arr [])])]))])
        (fun _ _ => 0) ["a", "b"] "q" (by norm_num)).2
      { original_response := some (Json.obj
          [("texts_embeddings", Json.obj [("predictions", Json.arr
            [Json.obj [("embeddings", Json.obj [("values", Json.arr [])])],
             Json.obj [("embeddings",
               Json.obj [("values", Json.arr [])])]])]),
           ("embeddings_query", Json.obj [("predictions", Json.arr
            [Json.obj [("embeddings",
              Json.obj [("values", Json.arr [])])]])])]),
        standardized_response :=
          [{ object := "search_result", document := 0, score := 0 },
           { object := "search_result", document := 1, score := 0 }] }
      rfl⟩

/-- Looking up the key just assigned by a dict update yields the assigned
value. -/
theorem lookupEntry_setEntry_same :
    ∀ (es : List (String × Json)) (k : String) (v : Json),
      lookupEntry (setEntry es k v) k = some v := by
  intro es k v
  induction es with
  | nil => simp [setEntry, lookupEntry]
  | cons p rest ih =>
    obtain ⟨k', w⟩ := p
    by_cases hk : k' = k
    · simp [setEntry, lookupEntry, hk]
    · simp [setEntry, lookupEntry, hk, ih]

/-- `d[key] = v` followed by `d[key]` reads back `v`. -/
theorem get_set_same (es : List (String × Json)) (k : String) (v : Json) :
    ((Json.obj es).set k v).get? k = some v := by
  simp [Json.set, Json.get?, lookupEntry_setEntry_same]

/-- Unfolding dict assignment on a dict literal. -/
theorem set_obj (es : List (String × Json)) (k : String) (v : Json) :
    (Json.obj es).set k v = Json.obj (setEntry es k v) := rfl

/-- Reading back an assigned key, stated on the unfolded form. -/
theorem get_setEntry_same (es : List (String × Json)) (k : String)
    (v : Json) : (Json.obj (setEntry es k v)).get? k = some v := by
  simp [Json.get?, lookupEntry_setEntry_same]

/-- C10, counterexample.  The xAI prompt-optimization usage patch adds the
missing-information call's total on top of the vendor total: starting from a
vendor usage of 1 prompt + 1 completion = 2 total and a missing-information
total of 3, the patched dict reports `total_tokens = 5` while its prompt and
completion entries still sum to 2 — the exact-sum claim is false. -/
theorem claim10_counterexample :
    usageEntryOf "total_tokens"
        (xaiPatchPromptOptimizationUsage
          (Json.obj [("usage", Json.obj
            [("prompt_tokens", Json.num 1), ("completion_tokens", Json.num 1),
             ("total_tokens", Json.num 2)])])
          (Json.obj [("usage", Json.obj [("total_tokens", Json.num 3)])])) =
      some (Json.num 5)
    ∧ usageEntryOf "prompt_tokens"
        (xaiPatchPromptOptimizationUsage
          (Json.obj [("usage", Json.obj
            [("prompt_tokens", Json.num 1), ("completion_tokens", Json.num 1),
             ("total_tokens", Json.num 2)])])
          (Json.obj [("usage", Json.obj [("total_tokens", Json.num 3)])])) =
      some (Json.num 1)
    ∧ usageEntryOf "completion_tokens"
        (xaiPatchPromptOptimizationUsage
          (Json.obj [("usage", Json.obj
            [("prompt_tokens", Json.num 1), ("completion_tokens", Json.num 1),
             ("total_tokens", Json.num 2)])])
          (Json.obj [("usage", Json.obj [("total_tokens", Json.num 3)])])) =
      some (Json.num 1)
    ∧ (5 : Int) ≠ 1 + 1 :=
  ⟨rfl, rfl, rfl, by norm_num⟩

/-- C10, amended.  Anthropic's computed and patched usage dicts do satisfy
the exact sum: `__calculate_usage` sets `total_tokens` to
`prompt_tokens + completion_tokens`, and the summarize/chat patch sets it to
`input_tokens + output_tokens`.  The xAI prompt-optimization patch instead
sets `total_tokens` to the main call's total plus the missing-information
call's total, which exceeds the main call's prompt+completion sum whenever
the second call consumed tokens. -/
theorem claim10_amended :
    (∀ (count_tokens : String → Option Nat) (prompt generated : String)
        (p c : Nat),
      count_tokens prompt = some p → count_tokens generated = some c →
      anthropicCalculateUsage count_tokens prompt generated =
        .ok (Json.obj
          [("total_tokens", Json.num (p + c)),
           ("prompt_tokens", Json.num p),
           ("completion_tokens", Json.num c)]))
    ∧ (∀ (response usage : Json) (i o : Int),
      response.get? "usage" = some usage →
      usage.get? "input_tokens" = some (Json.num i) →
      usage.get? "output_tokens" = some (Json.num o) →
      anthropicPatchUsage response =
        .ok (response.set "usage"
          (usage.set "total_tokens" (Json.num (i + o))))
      ∧ usageEntryOf "total_tokens" (anthropicPatchUsage response) =
          some (Json.num (i + o)))
    ∧ (∀ (original missing usage musage : Json) (t m : Int),
      jsonBracket missing "usage" = .ok musage →
      musage.get? "total_tokens" = some (Json.num m) →
      jsonBracket original "usage" = .ok usage →
      usage.get? "total_tokens" = some (Json.num t) →
      usageEntryOf "total_tokens"
          (xaiPatchPromptOptimizationUsage original missing) =
        some (Json.num (t + m))
      ∧ ∀ p c : Int, t = p + c → 0 < m → t + m ≠ p + c) := by
  refine ⟨fun ct prompt generated p c h1 h2 => ?_,
    fun response usage i o h1 h2 h3 => ?_,
    fun original missing usage musage t m h1 h2 h3 h4 => ?_⟩
  · simp [anthropicCalculateUsage, h1, h2]
  · have heq : anthropicPatchUsage response =
        .ok (response.set "usage"
          (usage.set "total_tokens" (Json.num (i + o)))) := by
      simp [anthropicPatchUsage, h1, h2, h3]
    refine ⟨heq, ?_⟩
    rw [heq]
    obtain ⟨res, rfl⟩ : ∃ res, response = Json.obj res := by
      cases response <;> simp [Json.get?] at h1
      exact ⟨_, rfl⟩
    obtain ⟨ues, rfl⟩ : ∃ ues, usage = Json.obj ues := by
      cases usage <;> simp [Json.get?] at h2
      exact ⟨_, rfl⟩
    simp [usageEntryOf, set_obj, get_setEntry_same]
  · obtain ⟨ues, rfl⟩ : ∃ ues, usage = Json.obj ues := by
      cases usage <;> simp [Json.get?] at h4
      exact ⟨_, rfl⟩
    obtain ⟨res, rfl⟩ : ∃ res, original = Json.obj res := by
      cases original <;> simp [jsonBracket] at h3
      exact ⟨_, rfl⟩
    constructor
    · have hm' : jsonBracket musage "total_tokens" = .ok (Json.num m) := by
        obtain ⟨mes, rfl⟩ : ∃ mes, musage = Json.obj mes := by
          cases musage <;> simp [Json.get?] at h2
          exact ⟨_, rfl⟩
        simp only [Json.get?] at h2
        simp [jsonBracket, h2]
      have ht' : jsonBracket (Json.obj ues) "total_tokens" =
          .ok (Json.num t) := by
        simp only [Json.get?] at h4
        simp [jsonBracket, h4]
      simp only [xaiPatchPromptOptimizationUsage, h1, hm', h3, ht']
      simp [usageEntryOf, set_obj, get_setEntry_same]
    · intro p c hpc hm
      omega

/-- C10, witness: the amended theorem at a concrete token oracle, a concrete
Anthropic reply, and the concrete xAI replies of the counterexample. -/
theorem claim10_witness :
    anthropicCalculateUsage
        (fun s => some s.length) "ab" "c" =
      .ok (Json.obj
        [("total_tokens", Json.num (2 + 1)),
         ("prompt_tokens", Json.num 2),
         ("completion_tokens", Json.num 1)])
    ∧ usageEntryOf "total_tokens"
        (anthropicPatchUsage (Json.obj [("usage", Json.obj
          [("input_tokens", Json.num 4), ("output_tokens", Json.num 6)])])) =
      some (Json.num (4 + 6))
    ∧ usageEntryOf "total_tokens"
        (xaiPatchPromptOptimizationUsage
          (Json.obj [("usage", Json.obj
            [("prompt_tokens", Json.num 1), ("completion_tokens", Json.num 1),
             ("total_tokens", Json.num 2)])])
          (Json.obj [("usage", Json.obj [("total_tokens", Json.num 3)])])) =
      some (Json.num (2 + 3)) :=
  ⟨claim10_amended.1 (fun s => some s.length) "ab" "c" 2 1 rfl rfl,
    (claim10_amended.2.1
      (Json.obj [("usage", Json.obj
        [("input_tokens", Json.num 4), ("output_tokens", Json.num 6)])])
      (Json.obj
        [("input_tokens", Json.num 4), ("output_tokens", Json.num 6)])
      4 6 rfl rfl rfl).2,
    (claim10_amended.2.2
      (Json.obj [("usage", Json.obj
        [("prompt_tokens", Json.num 1), ("completion_tokens", Json.num 1),
         ("total_tokens", Json.num 2)])])
      (Json.obj [("usage", Json.obj [("total_tokens", Json.num 3)])])
      (Json.obj
        [("prompt_tokens", Json.num 1), ("completion_tokens", Json.num 1),
         ("total_tokens", Json.num 2)])
      (Json.obj [("total_tokens", Json.num 3)]) 2 3 rfl rfl rfl rfl).1⟩

/-- A successful dict lookup comes from an entry of the dict. -/
theorem lookupEntry_mem :
    ∀ {es : List (String × Json)} {k : String} {v : Json},
      lookupEntry es k = some v → (k, v) ∈ es := by
  intro es
  induction es with
  | nil => intro k v h; exact Option.noConfusion h
  | cons p rest ih =>
    intro k v h
    obtain ⟨k', w⟩ := p
    simp only [lookupEntry] at h
    by_cases hk : k' = k
    · subst hk
      rw [if_pos rfl] at h
      injection h with h'
      subst h'
      exact List.mem_cons_self _ _
    · rw [if_neg hk] at h
      exact List.mem_cons_of_mem _ (ih h)

/-- In a well-formed fields dict, every present value is a dict with a
`"value"` entry. -/
theorem wellFormed_lookup {entries : List (String × Json)}
    (hwf : wellFormedFields entries = true) {k : String} {v : Json}
    (h : lookupEntry entries k = some v) :
    ∃ es x, v = Json.obj es ∧ lookupEntry es "value" = some x := by
  have hmem := lookupEntry_mem h
  have hv := List.all_eq_true.mp hwf _ hmem
  cases v with
  | obj es =>
    simp only at hv
    obtain ⟨x, hx⟩ := Option.isSome_iff_exists.mp hv
    exact ⟨es, x, rfl, hx⟩
  | null => exact absurd hv (by simp)
  | bool b => exact absurd hv (by simp)
  | num n => exact absurd hv (by simp)
  | str s => exact absurd hv (by simp)
  | arr xs => exact absurd hv (by simp)

/-- On a well-formed fields dict the invoice accessor is total and equal to
`fieldValue`. -/
theorem dictGetValueGet_wf {entries : List (String × Json)}
    (hwf : wellFormedFields entries = true) (k : String) :
    dictGetValueGet entries k = .ok (fieldValue entries k) := by
  unfold dictGetValueGet fieldValue
  cases hl : lookupEntry entries k with
  | none => rfl
  | some v =>
    obtain ⟨es, x, rfl, hx⟩ := wellFormed_lookup hwf hl
    rfl

/-- On a well-formed fields dict the receipt accessor is total and equal to
`fieldValue`. -/
theorem dictGetValueBracket_wf {entries : List (String × Json)}
    (hwf : wellFormedFields entries = true) (k : String) :
    dictGetValueBracket entries k = .ok (fieldValue entries k) := by
  unfold dictGetValueBracket fieldValue
  cases hl : lookupEntry entries k with
  | none => rfl
  | some v =>
    obtain ⟨es, x, rfl, hx⟩ := wellFormed_lookup hwf hl
    simp [hx]

/-- Splitting well-formedness of a cons. -/
theorem wellFormedFields_cons {k : String} {v : Json}
    {rest : List (String × Json)}
    (hwf : wellFormedFields ((k, v) :: rest) = true) :
    wellFormedFields rest = true ∧
      ∃ es x, v = Json.obj es ∧ lookupEntry es "value" = some x := by
  refine ⟨?_, wellFormed_lookup hwf (k := k) (v := v) ?_⟩
  · simp only [wellFormedFields, List.all_cons, Bool.and_eq_true] at hwf
    exact hwf.2
  · simp [lookupEntry]

/-- On a well-formed fields dict the line-item comprehension is total. -/
theorem lineItemValues_wf :
    ∀ {entries : List (String × Json)},
      wellFormedFields entries = true → ∀ suffix : String,
      lineItemValues entries suffix =
        .ok (lineItemValuesTotal entries suffix) := by
  intro entries
  induction entries with
  | nil => intro _ suffix; rfl
  | cons p rest ih =>
    intro hwf suffix
    obtain ⟨k, v⟩ := p
    obtain ⟨hrest, es, x, rfl, hx⟩ := wellFormedFields_cons hwf
    have hb : jsonBracket (Json.obj es) "value" = .ok x := by
      simp [jsonBracket, hx]
    have hn : (Json.obj es).getNull "value" = x := by
      simp [Json.getNull, Json.get?, hx]
    by_cases hk : (k.startsWith "lineItem" && k.endsWith suffix) = true
    · rw [Bool.and_eq_true] at hk
      simp [lineItemValues, lineItemValuesTotal, List.filterMap_cons, hk.1,
        hk.2, hb, hn, ih hrest suffix]
    · rw [Bool.and_eq_true] at hk
      simp [lineItemValues, lineItemValuesTotal, List.filterMap_cons, hk,
        ih hrest suffix]

/-- On a well-formed fields dict `_extract_item_lignes` is total and equal
to `itemLinesOf`. -/
theorem extractItemLignes_wf {entries : List (String × Json)}
    (hwf : wellFormedFields entries = true) :
    base64ExtractItemLignes entries = .ok (itemLinesOf entries) := by
  simp only [base64ExtractItemLignes, lineItemValues_wf hwf, itemLinesOf]

/-- On a well-formed fields dict the invoice formatter succeeds and equals
its total denotation `invoiceOf`. -/
theorem formatInvoice_wf {entries : List (String × Json)}
    (hwf : wellFormedFields entries = true) :
    base64FormatInvoiceDocumentData (docDataOf entries) =
      .ok (invoiceOf entries) := by
  have hidx : jsonIndex (docDataOf entries) 0 =
      .ok (Json.obj [("fields", Json.obj entries)]) := rfl
  have hfields : (Json.obj [("fields", Json.obj entries)]).getD "fields"
      (Json.arr []) = Json.obj entries := rfl
  simp only [base64FormatInvoiceDocumentData, hidx, hfields,
    extractItemLignes_wf hwf, dictGetValueGet_wf hwf, invoiceOf]

/-- On a well-formed fields dict the receipt formatter succeeds and equals
its total denotation `receiptOf`. -/
theorem formatReceipt_wf {entries : List (String × Json)}
    (hwf : wellFormedFields entries = true) :
    base64FormatReceiptDocumentData (docDataOf entries) =
      .ok (receiptOf entries) := by
  have hidx : jsonIndex (docDataOf entries) 0 =
      .ok (Json.obj [("fields", Json.obj entries)]) := rfl
  have hfields : (Json.obj [("fields", Json.obj entries)]).getD "fields"
      (Json.arr []) = Json.obj entries := rfl
  simp only [base64FormatReceiptDocumentData, hidx, hfields,
    extractItemLignes_wf hwf, dictGetValueBracket_wf hwf, receiptOf]

/-- C5, counterexample.  When the `"date"` and `"time"` keys are absent from
the Base64 `fields` dict, the receipt formatter's `date=str(date)` turns the
`None` into the *string* `"None"` rather than leaving the field null: the
every-missing-key-becomes-null claim is false for the receipt date/time. -/
theorem claim5_counterexample :
    receiptDateOf
        (base64FormatReceiptDocumentData
          (Json.arr [Json.obj [("fields", Json.obj [])]])) =
      some (Json.str "None")
    ∧ Json.str "None" ≠ Json.null :=
  ⟨rfl, fun h => Json.noConfusion h⟩

/-- C5, amended.  On any well-formed fields dict (each present field a dict
carrying a `"value"` entry) the invoice and receipt formatters succeed and
equal their total denotations; a key missing from the fields dict
contributes `None` (`fieldValue` is null, and each named DTO field derived
from a missing key is null) — except the receipt's `date` and `time`
fields, which pass through Python `str(...)` and hold the string `"None"`
when their keys are absent.  `Base64Api.Field.__getitem__` likewise yields
`None` for a missing key. -/
theorem claim5_amended :
    (∀ entries, wellFormedFields entries = true →
      base64FormatInvoiceDocumentData (docDataOf entries) =
        .ok (invoiceOf entries)
      ∧ base64FormatReceiptDocumentData (docDataOf entries) =
        .ok (receiptOf entries))
    ∧ (∀ (entries : List (String × Json)) (key : String),
      lookupEntry entries key = none → fieldValue entries key = Json.null)
    ∧ (∀ (document : Json) (key : String),
      (document.getD "fields" (Json.obj [])).get? key = none →
      base64FieldGetitem document key = Json.null)
    ∧ (∀ entries, lookupEntry entries "date" = none →
      (receiptOf entries).date = Json.str "None")
    ∧ (∀ entries, lookupEntry entries "time" = none →
      (receiptOf entries).time = Json.str "None")
    ∧ (∀ entries, lookupEntry entries "companyName" = none →
      (invoiceOf entries).merchant_information.merchant_name = Json.null)
    ∧ (∀ entries, lookupEntry entries "from" = none →
      (invoiceOf entries).merchant_information.merchant_address = Json.null)
    ∧ (∀ entries, lookupEntry entries "billTo" = none →
      (invoiceOf entries).customer_information.customer_name = Json.null
      ∧ (invoiceOf entries).customer_information.customer_billing_address =
        Json.null)
    ∧ (∀ entries, lookupEntry entries "address" = none →
      (invoiceOf entries).customer_information.customer_address = Json.null
      ∧ (invoiceOf entries).customer_information.customer_mailing_address =
        Json.null)
    ∧ (∀ entries, lookupEntry entries "soldTo" = none →
      (invoiceOf entries).customer_information.customer_remittance_address =
        Json.null)
    ∧ (∀ entries, lookupEntry entries "shipTo" = none →
      (invoiceOf entries).customer_information.customer_shipping_address =
        Json.null)
    ∧ (∀ entries, lookupEntry entries "invoiceNumber" = none →
      (invoiceOf entries).invoice_number = Json.null)
    ∧ (∀ entries, lookupEntry entries "total" = none →
      (invoiceOf entries).invoice_total = Json.null
      ∧ (receiptOf entries).invoice_total = Json.null)
    ∧ (∀ entries, lookupEntry entries "subtotal" = none →
      (invoiceOf entries).invoice_subtotal = Json.null
      ∧ (receiptOf entries).invoice_subtotal = Json.null)
    ∧ (∀ entries, lookupEntry entries "balanceDue" = none →
      (invoiceOf entries).amount_due = Json.null)
    ∧ (∀ entries, lookupEntry entries "discount" = none →
      (invoiceOf entries).discount = Json.null)
    ∧ (∀ entries, lookupEntry entries "tax" = none →
      (invoiceOf entries).taxes = [{ value := Json.null, rate := Json.null }]
      ∧ (receiptOf entries).taxes = [{ taxes := Json.null }])
    ∧ (∀ entries, lookupEntry entries "paymentTerms" = none →
      (invoiceOf entries).payment_term = Json.null)
    ∧ (∀ entries, lookupEntry entries "purchaseOrder" = none →
      (invoiceOf entries).purchase_order = Json.null)
    ∧ (∀ entries, lookupEntry entries "invoiceDate" = none →
      (invoiceOf entries).date = Json.null)
    ∧ (∀ entries, lookupEntry entries "dueDate" = none →
      (invoiceOf entries).due_date = Json.null)
    ∧ (∀ entries, lookupEntry entries "iban" = none →
      (invoiceOf entries).bank_informations.iban = Json.null)
    ∧ (∀ entries, lookupEntry entries "accountNumber" = none →
      (invoiceOf entries).bank_informations.account_number = Json.null)
    ∧ (∀ entries, lookupEntry entries "currency" = none →
      (invoiceOf entries).locale.currency = Json.null
      ∧ (receiptOf entries).locale.currency = Json.null)
    ∧ (∀ entries, lookupEntry entries "receiptNo" = none →
      (receiptOf entries).invoice_number = Json.null)
    ∧ (∀ entries, lookupEntry entries "companyName" = none →
      (receiptOf entries).merchant_information.merchant_name = Json.null)
    ∧ (∀ entries, lookupEntry entries "addressBlock" = none →
      (receiptOf entries).merchant_information.merchant_address = Json.null)
    ∧ (∀ entries, lookupEntry entries "shipTo" = none →
      (receiptOf entries).customer_information.customer_name = Json.null)
    ∧ (∀ entries, lookupEntry entries "cardNumber" = none →
      (receiptOf entries).payment_information.card_number = Json.null)
    ∧ (∀ entries, lookupEntry entries "cardType" = none →
      (receiptOf entries).payment_information.card_type = Json.null) := by
  refine ⟨fun entries hwf => ⟨formatInvoice_wf hwf, formatReceipt_wf hwf⟩,
    ?_, ?_, ?_, ?_, ?_, ?_, ?_, ?_, ?_, ?_, ?_, ?_, ?_, ?_, ?_, ?_, ?_,
    ?_, ?_, ?_, ?_, ?_, ?_, ?_, ?_, ?_, ?_, ?_, ?_⟩
  · intro entries key h
    simp [fieldValue, h]
  · intro document key h
    have h2 : (document.getD "fields" (Json.obj [])).getD key
        (Json.obj []) = Json.obj [] := by
      simp only [Json.getD] at h ⊢
      simp [h]
    simp [base64FieldGetitem, h2, Json.getNull, Json.get?, lookupEntry]
  all_goals intro entries h
  all_goals
    simp [invoiceOf, receiptOf, fieldValue, h, convert_string_to_number,
      combine_date_with_time, pyStr]

/-- C5, witness: the amended theorem at the empty fields dict. -/
theorem claim5_witness :
    base64FormatInvoiceDocumentData (docDataOf []) = .ok (invoiceOf [])
    ∧ base64FormatReceiptDocumentData (docDataOf []) = .ok (receiptOf [])
    ∧ fieldValue [] "anything" = Json.null
    ∧ base64FieldGetitem (Json.obj []) "amount" = Json.null
    ∧ (receiptOf []).date = Json.str "None"
    ∧ (invoiceOf []).merchant_information.merchant_name = Json.null :=
  ⟨(claim5_amended.1 [] rfl).1,
    (claim5_amended.1 [] rfl).2,
    claim5_amended.2.1 [] "anything" rfl,
    claim5_amended.2.2.1 (Json.obj []) "amount" rfl,
    claim5_amended.2.2.2.1 [] rfl,
    claim5_amended.2.2.2.2.2.1 [] rfl⟩

end EdenAI
